import Mathlib

/-! Kinetis LPUART serial driver (arch/arm/src/kinetis/kinetis_lpserial.c).

A shallow embedding of the interrupt-driven LPUART line driver: the
interrupt-enable shadow `priv->ie`, the control/status/data registers, the
interrupt handler, the byte receive operation, input flow control and the
termios requests of `kinetis_ioctl`.

Machine integers are natural numbers; a value stored into a `uintN_t` object is
reduced modulo `2^N`.  Every register access made by the driver is appended to
a trace, so that the order and number of accesses can be stated.
-/

namespace KinetisLpserial

/-! ## Machine integers -/

/-- Conversion to `uint32_t`. -/
def u32 (x : Nat) : Nat := x % 2 ^ 32

/-- Conversion to `uint16_t`. -/
def u16 (x : Nat) : Nat := x % 2 ^ 16

/-- Conversion to `uint8_t`. -/
def u8 (x : Nat) : Nat := x % 2 ^ 8

/-- The C operator `~` on a 32-bit operand. -/
def not32 (x : Nat) : Nat := 4294967295 ^^^ u32 x

/-- Conversion of a `uint32_t` value to `int`. -/
def toInt32 (x : Nat) : Int := if u32 x < 2 ^ 31 then (u32 x : Int) else (u32 x : Int) - 2 ^ 32

/-- Conversion of an `int` value to `uint32_t`. -/
def ofInt32 (x : Int) : Nat := (x % 2 ^ 32).toNat

/-! ## Register layout

The header `chip/kinetis_lpuart.h` is not part of the excerpt.  The register
offsets and bit positions below are those of the LPUART register map; they agree
with the one relation the driver relies on, namely that the four error enables
of CTRL sit eight bits above the four error flags of STAT while RIE/TIE share
their position with RDRF/TDRE (`LPUART_CTRL2STAT`). -/

/-- Modelled from the spec: offset of the status register (header not in the excerpt). -/
def KINETIS_LPUART_STAT_OFFSET : Nat := 0x0004
/-- Modelled from the spec: offset of the control register (header not in the excerpt). -/
def KINETIS_LPUART_CTRL_OFFSET : Nat := 0x0008
/-- Modelled from the spec: offset of the data register (header not in the excerpt). -/
def KINETIS_LPUART_DATA_OFFSET : Nat := 0x000c

/-- Modelled from the spec: CTRL receiver source select, bit 5 (header not in the excerpt). -/
def LPUART_CTRL_RSRC : Nat := 1 <<< 5
/-- Modelled from the spec: CTRL loop mode select, bit 7 (header not in the excerpt). -/
def LPUART_CTRL_LOOPS : Nat := 1 <<< 7
/-- Modelled from the spec: CTRL match 1 interrupt enable, bit 15 (header not in the excerpt). -/
def LPUART_CTRL_MA1IE : Nat := 1 <<< 15
/-- Modelled from the spec: CTRL send break, bit 16 (header not in the excerpt). -/
def LPUART_CTRL_SBK : Nat := 1 <<< 16
/-- Modelled from the spec: CTRL receiver enable, bit 18 (header not in the excerpt). -/
def LPUART_CTRL_RE : Nat := 1 <<< 18
/-- Modelled from the spec: CTRL transmitter enable, bit 19 (header not in the excerpt). -/
def LPUART_CTRL_TE : Nat := 1 <<< 19
/-- Modelled from the spec: CTRL idle line interrupt enable, bit 20 (header not in the excerpt). -/
def LPUART_CTRL_ILIE : Nat := 1 <<< 20
/-- Modelled from the spec: CTRL receiver interrupt enable, bit 21 (header not in the excerpt). -/
def LPUART_CTRL_RIE : Nat := 1 <<< 21
/-- Modelled from the spec: CTRL transmission complete interrupt enable, bit 22
(header not in the excerpt). -/
def LPUART_CTRL_TCIE : Nat := 1 <<< 22
/-- Modelled from the spec: CTRL transmit interrupt enable, bit 23 (header not in the excerpt). -/
def LPUART_CTRL_TIE : Nat := 1 <<< 23
/-- Modelled from the spec: CTRL parity error interrupt enable, bit 24 (header not in the excerpt). -/
def LPUART_CTRL_PEIE : Nat := 1 <<< 24
/-- Modelled from the spec: CTRL framing error interrupt enable, bit 25 (header not in the excerpt). -/
def LPUART_CTRL_FEIE : Nat := 1 <<< 25
/-- Modelled from the spec: CTRL noise error interrupt enable, bit 26 (header not in the excerpt). -/
def LPUART_CTRL_NEIE : Nat := 1 <<< 26
/-- Modelled from the spec: CTRL overrun interrupt enable, bit 27 (header not in the excerpt). -/
def LPUART_CTRL_ORIE : Nat := 1 <<< 27

/-- Modelled from the spec: STAT parity error flag, bit 16 (header not in the excerpt). -/
def LPUART_STAT_PF : Nat := 1 <<< 16
/-- Modelled from the spec: STAT framing error flag, bit 17 (header not in the excerpt). -/
def LPUART_STAT_FE : Nat := 1 <<< 17
/-- Modelled from the spec: STAT noise flag, bit 18 (header not in the excerpt). -/
def LPUART_STAT_NF : Nat := 1 <<< 18
/-- Modelled from the spec: STAT receiver overrun flag, bit 19 (header not in the excerpt). -/
def LPUART_STAT_OR : Nat := 1 <<< 19
/-- Modelled from the spec: STAT receive data register full, bit 21 (header not in the excerpt). -/
def LPUART_STAT_RDRF : Nat := 1 <<< 21
/-- Modelled from the spec: STAT transmit data register empty, bit 23 (header not in the excerpt). -/
def LPUART_STAT_TDRE : Nat := 1 <<< 23
/-- Modelled from the spec: STAT break character length, bit 26 (header not in the excerpt). -/
def LPUART_STAT_BRK13 : Nat := 1 <<< 26

/-! ## Masks defined by the driver (lines 191-212) -/

/-- The mask `LPUART_CTRL_ERROR_INTS`. -/
def LPUART_CTRL_ERROR_INTS : Nat :=
  LPUART_CTRL_ORIE ||| LPUART_CTRL_FEIE ||| LPUART_CTRL_NEIE ||| LPUART_CTRL_PEIE

/-- The mask `LPUART_CTRL_RX_INTS`. -/
def LPUART_CTRL_RX_INTS : Nat := LPUART_CTRL_RIE

/-- The mask `LPUART_CTRL_TX_INTS`. -/
def LPUART_CTRL_TX_INTS : Nat := LPUART_CTRL_TIE

/-- The mask `LPUART_CTRL_ALL_INTS`, as written in the source: MA1IE is listed twice and
the error enables are not listed. -/
def LPUART_CTRL_ALL_INTS : Nat :=
  LPUART_CTRL_TX_INTS ||| LPUART_CTRL_RX_INTS |||
  LPUART_CTRL_MA1IE ||| LPUART_CTRL_MA1IE |||
  LPUART_CTRL_ILIE ||| LPUART_CTRL_TCIE

/-- The mask `LPUART_STAT_ERRORS`. -/
def LPUART_STAT_ERRORS : Nat :=
  LPUART_STAT_OR ||| LPUART_STAT_FE ||| LPUART_STAT_PF ||| LPUART_STAT_NF

/-- The mask `LPUART_CTRL_TR_INTS`. -/
def LPUART_CTRL_TR_INTS : Nat := LPUART_CTRL_TX_INTS ||| LPUART_CTRL_RX_INTS

/-- The mapping `LPUART_CTRL2STAT(c)`: map the enable bits of CTRL to the flags of STAT. -/
def LPUART_CTRL2STAT (c : Nat) : Nat :=
  ((c &&& LPUART_CTRL_ERROR_INTS) >>> 8) ||| (c &&& LPUART_CTRL_TR_INTS)

/-- The value `OK`. -/
def OK : Int := 0

/-- The errno value `EINVAL`. -/
def EINVAL : Int := 22

/-- The errno value `ENOTTY`. -/
def ENOTTY : Int := 25

/-! ## State -/

/-- The type `struct kinetis_dev_s` (lines 218-240), in a build with both flow controls. -/
structure kinetis_dev_s where
  uartbase : Nat
  baud : Nat
  clock : Nat
  ie : Nat
  irq : Nat
  parity : Nat
  bits : Nat
  stop2 : Nat
  iflow : Bool
  oflow : Bool
  rts_gpio : Nat
  cts_gpio : Nat
deriving DecidableEq, Repr

/-- The LPUART register block as the driver sees it.  CTRL holds what was last
written to it.  STAT and DATA are volatile: `stat` and `data` list the values
that successive reads of the register return (an exhausted list reads 0). -/
structure Lpuart where
  ctrl : Nat
  stat : List Nat
  data : List Nat
deriving DecidableEq, Repr

/-- One observable action of the driver. -/
inductive Access where
  | serialin (offset value : Nat)
  | serialout (offset value : Nat)
  | uart_recvchars
  | uart_xmitchars
  | lpuartconfigure (baud clock parity bits stop2 : Nat) (iflow oflow : Bool)
  | lpuartreset
  | irq_attach (irq : Nat)
  | irq_detach (irq : Nat)
  | up_enable_irq (irq : Nat)
  | up_disable_irq (irq : Nat)
  | up_lowputc (ch : Int)
deriving DecidableEq, Repr

/-- Driver instance, its register block and the trace of driver actions. -/
structure State where
  priv : kinetis_dev_s
  hw : Lpuart
  trace : List Access
deriving DecidableEq, Repr

/-- The `struct termios` fields the driver touches. -/
structure termios where
  c_cflag : Nat
  c_speed : Nat
deriving DecidableEq, Repr

/-- The `c_cflag` masks of `<termios.h>` that the driver uses.  The header is not
part of the excerpt and its values differ between releases, so the masks are
parameters of the model. -/
structure CFlags where
  CSIZE : Nat
  CS8 : Nat
  CSTOPB : Nat
  PARENB : Nat
  PARODD : Nat
  CCTS_OFLOW : Nat
  CRTS_IFLOW : Nat
deriving DecidableEq, Repr

/-- What the driver relies on about the `c_cflag` masks: `CS8` is a value of the
`CSIZE` field, the other masks are non-zero, lie outside `CSIZE` and do not
overlap one another. -/
def CFlags.wf (f : CFlags) : Prop :=
  f.CS8 &&& f.CSIZE = f.CS8 ∧
  f.CSTOPB ≠ 0 ∧ f.PARENB ≠ 0 ∧ f.PARODD ≠ 0 ∧ f.CCTS_OFLOW ≠ 0 ∧ f.CRTS_IFLOW ≠ 0 ∧
  f.CSTOPB &&& f.CSIZE = 0 ∧ f.PARENB &&& f.CSIZE = 0 ∧ f.PARODD &&& f.CSIZE = 0 ∧
  f.CCTS_OFLOW &&& f.CSIZE = 0 ∧ f.CRTS_IFLOW &&& f.CSIZE = 0 ∧
  f.PARENB &&& f.PARODD = 0 ∧ f.PARENB &&& f.CSTOPB = 0 ∧ f.PARENB &&& f.CCTS_OFLOW = 0 ∧
  f.PARENB &&& f.CRTS_IFLOW = 0 ∧ f.PARODD &&& f.CSTOPB = 0 ∧ f.PARODD &&& f.CCTS_OFLOW = 0 ∧
  f.PARODD &&& f.CRTS_IFLOW = 0 ∧ f.CSTOPB &&& f.CCTS_OFLOW = 0 ∧
  f.CSTOPB &&& f.CRTS_IFLOW = 0 ∧ f.CCTS_OFLOW &&& f.CRTS_IFLOW = 0

instance (f : CFlags) : Decidable f.wf := by
  unfold CFlags.wf
  infer_instance

/-- The `ioctl` commands the driver distinguishes; any other command number is
`other`. -/
inductive IoctlCmd where
  | TIOCSERGSTRUCT
  | TIOCSSINGLEWIRE
  | TCGETS
  | TCSETS
  | TIOCSBRK
  | TIOCCBRK
  | other (cmd : Nat)
deriving DecidableEq, Repr

/-- Modelled from the spec: the argument value `SER_SINGLEWIRE_ENABLED` of
`TIOCSSINGLEWIRE` (its header is not in the excerpt). -/
def SER_SINGLEWIRE_ENABLED : Nat := 1

/-- Code outside the driver that the driver calls: the serial framework
callbacks (which may call back into the driver and so change the instance and
the registers), the low-level line programming, and the termios speed
accessors. -/
structure Framework where
  uart_recvchars : kinetis_dev_s → Lpuart → kinetis_dev_s × Lpuart
  uart_xmitchars : kinetis_dev_s → Lpuart → kinetis_dev_s × Lpuart
  kinetis_lpuartconfigure : Nat → Nat → Nat → Nat → Nat → Bool → Bool → Lpuart → Lpuart
  kinetis_lpuartreset : Lpuart → Lpuart
  up_lowputc : Int → Lpuart → Lpuart
  irq_attach : Nat → Int
  cfsetispeed : termios → Nat → termios
  cfgetispeed : termios → Nat

/-- Build configuration: the preprocessor symbols the modelled code tests. -/
structure Config where
  SUPPRESS_SERIAL_INTS : Bool
  SUPPRESS_LPUART_CONFIG : Bool
  SERIAL_IFLOWCONTROL : Bool
  SERIAL_OFLOWCONTROL : Bool
  SERIAL_IFLOWCONTROL_WATERMARKS : Bool
  SERIAL_TERMIOS : Bool
  SERIAL_TIOCSERGSTRUCT : Bool
  KINETIS_UART_SINGLEWIRE : Bool
  KINETIS_UART_BREAKS : Bool
  KINETIS_UART_EXTEDED_BREAK : Bool
  KINETIS_SERIALBRK_BSDCOMPAT : Bool
deriving DecidableEq, Repr

/-! ## Register access -/

/-- The value a read of the register at `offset` returns. -/
def getreg32 (offset : Nat) (hw : Lpuart) : Nat :=
  if offset = KINETIS_LPUART_CTRL_OFFSET then u32 hw.ctrl
  else if offset = KINETIS_LPUART_STAT_OFFSET then u32 (hw.stat.headD 0)
  else if offset = KINETIS_LPUART_DATA_OFFSET then u32 (hw.data.headD 0)
  else 0

/-- The register block after a read of the register at `offset`. -/
def afterRead (offset : Nat) (hw : Lpuart) : Lpuart :=
  if offset = KINETIS_LPUART_STAT_OFFSET then { hw with stat := hw.stat.tail }
  else if offset = KINETIS_LPUART_DATA_OFFSET then { hw with data := hw.data.tail }
  else hw

/-- The register block after `value` is written to the register at `offset`. -/
def putreg32 (value offset : Nat) (hw : Lpuart) : Lpuart :=
  if offset = KINETIS_LPUART_CTRL_OFFSET then { hw with ctrl := u32 value }
  else hw

/-- The function `kinetis_serialin` (lines 512-516). -/
def kinetis_serialin (offset : Nat) (m : State) : Nat × State :=
  let v := getreg32 offset m.hw
  (v, { m with hw := afterRead offset m.hw, trace := m.trace ++ [Access.serialin offset v] })

/-- The function `kinetis_serialout` (lines 522-526). -/
def kinetis_serialout (offset value : Nat) (m : State) : State :=
  { m with hw := putreg32 value offset m.hw,
           trace := m.trace ++ [Access.serialout offset (u32 value)] }

/-- Call of the framework callback `uart_recvchars(dev)`. -/
def uart_recvchars (fw : Framework) (m : State) : State :=
  let r := fw.uart_recvchars m.priv m.hw
  { priv := r.1, hw := r.2, trace := m.trace ++ [Access.uart_recvchars] }

/-- Call of the framework callback `uart_xmitchars(dev)`. -/
def uart_xmitchars (fw : Framework) (m : State) : State :=
  let r := fw.uart_xmitchars m.priv m.hw
  { priv := r.1, hw := r.2, trace := m.trace ++ [Access.uart_xmitchars] }

/-- Call of `kinetis_lpuartconfigure` with the line parameters of the instance. -/
def kinetis_lpuartconfigure (fw : Framework) (iflow oflow : Bool) (m : State) : State :=
  let p := m.priv
  { m with
    hw := fw.kinetis_lpuartconfigure p.baud p.clock p.parity p.bits p.stop2 iflow oflow m.hw,
    trace := m.trace ++ [Access.lpuartconfigure p.baud p.clock p.parity p.bits p.stop2 iflow oflow] }

/-! ## Interrupt-enable shadow -/

/-- The function `kinetis_setuartint` (lines 532-545). -/
def kinetis_setuartint (m : State) : State :=
  let r := kinetis_serialin KINETIS_LPUART_CTRL_OFFSET m
  let regval := r.1
  let regval := regval &&& not32 LPUART_CTRL_ALL_INTS
  let regval := u32 (regval ||| r.2.priv.ie)
  kinetis_serialout KINETIS_LPUART_CTRL_OFFSET regval r.2

/-- The function `kinetis_restoreuartint` (lines 551-561). -/
def kinetis_restoreuartint (ie : Nat) (m : State) : State :=
  let m := { m with priv := { m.priv with ie := u32 (u32 ie &&& LPUART_CTRL_ALL_INTS) } }
  kinetis_setuartint m

/-- The function `kinetis_disableuartint` (lines 568-580), called with a non-null `ie`:
returns the captured shadow. -/
def kinetis_disableuartint (m : State) : Nat × State :=
  (m.priv.ie, kinetis_restoreuartint 0 m)

/-- The function `kinetis_rxint` (lines 1105-1129). -/
def kinetis_rxint (cfg : Config) (enable : Bool) (m : State) : State :=
  if enable then
    if cfg.SUPPRESS_SERIAL_INTS then m
    else
      let m := { m with priv := { m.priv with
        ie := u32 (m.priv.ie ||| (LPUART_CTRL_RX_INTS ||| LPUART_CTRL_ERROR_INTS)) } }
      kinetis_setuartint m
  else
    let m := { m with priv := { m.priv with
      ie := u32 (m.priv.ie &&& not32 (LPUART_CTRL_RX_INTS ||| LPUART_CTRL_ERROR_INTS)) } }
    kinetis_setuartint m

/-- The function `kinetis_txint` (lines 1244-1274). -/
def kinetis_txint (cfg : Config) (fw : Framework) (enable : Bool) (m : State) : State :=
  if enable then
    if cfg.SUPPRESS_SERIAL_INTS then m
    else
      let m := { m with priv := { m.priv with ie := u32 (m.priv.ie ||| LPUART_CTRL_TX_INTS) } }
      let m := kinetis_setuartint m
      uart_xmitchars fw m
  else
    let m := { m with priv := { m.priv with ie := u32 (m.priv.ie &&& not32 LPUART_CTRL_TX_INTS) } }
    kinetis_setuartint m

/-! ## Interrupt handler -/

/-- The read-and-qualify step of `kinetis_interrupt` (lines 724-726, repeated at
lines 786-788): read STAT, read CTRL, and keep the status bits whose enable bit
is set.  Returns the qualified status and the state after the two reads. -/
def kinetis_interrupt_qualify (m : State) : Nat × State :=
  let s := kinetis_serialin KINETIS_LPUART_STAT_OFFSET m
  let c := kinetis_serialin KINETIS_LPUART_CTRL_OFFSET s.2
  (s.1 &&& LPUART_CTRL2STAT c.1, c.2)

/-- Outcome of one pass through the body of the `do ... while` loop of
`kinetis_interrupt`: the handler returned, or the pass ended with the
re-qualified status on which the loop condition is evaluated. -/
inductive Pass where
  | ret (code : Int) (m : State)
  | next (stat : Nat) (m : State)
deriving DecidableEq, Repr

/-- Body of the `do ... while` loop of `kinetis_interrupt` (lines 728-789), run
on the qualified status `stat`. -/
def kinetis_interrupt_pass (fw : Framework) (stat : Nat) (m : State) : Pass :=
  if stat &&& LPUART_STAT_ERRORS ≠ 0 then
    let m := if stat &&& LPUART_STAT_OR ≠ LPUART_STAT_OR
      then (kinetis_serialin KINETIS_LPUART_DATA_OFFSET m).2 else m
    let m := kinetis_serialout KINETIS_LPUART_STAT_OFFSET (stat &&& LPUART_STAT_ERRORS) m
    Pass.ret OK m
  else
    let m := if stat &&& LPUART_STAT_RDRF ≠ 0 then uart_recvchars fw m else m
    let m := if stat &&& LPUART_STAT_TDRE ≠ 0 then uart_xmitchars fw m else m
    let q := kinetis_interrupt_qualify m
    Pass.next q.1 q.2

/-- The `do ... while (stat != 0)` loop of `kinetis_interrupt`; `fuel` bounds
the number of passes, `none` means the bound was reached. -/
def kinetis_interrupt_loop (fw : Framework) : Nat → Nat → State → Option (Int × State)
  | 0, _, _ => none
  | fuel + 1, stat, m =>
    match kinetis_interrupt_pass fw stat m with
    | Pass.ret code m1 => some (code, m1)
    | Pass.next stat1 m1 =>
      if stat1 ≠ 0 then kinetis_interrupt_loop fw fuel stat1 m1 else some (OK, m1)

/-- The function `kinetis_interrupt` (lines 712-792). -/
def kinetis_interrupt (fw : Framework) (fuel : Nat) (m : State) : Option (Int × State) :=
  let q := kinetis_interrupt_qualify m
  kinetis_interrupt_loop fw fuel q.1 q.2

/-! ## Byte transfer -/

/-- The function `kinetis_receive` (lines 1056-1095): returns the data, the value stored
through `status` when that pointer is non-null, and the new state. -/
def kinetis_receive (m : State) : Int × Nat × State :=
  let s := kinetis_serialin KINETIS_LPUART_STAT_OFFSET m
  let regval := s.1
  let status := regval
  let d := kinetis_serialin KINETIS_LPUART_DATA_OFFSET s.2
  let data : Int := toInt32 d.1
  let regval := regval &&& LPUART_STAT_ERRORS
  let m := if regval ≠ 0 then kinetis_serialout KINETIS_LPUART_STAT_OFFSET regval d.2 else d.2
  (data, status, m)

/-- The function `kinetis_rxavailable` (lines 1139-1147). -/
def kinetis_rxavailable (m : State) : Bool × State :=
  let s := kinetis_serialin KINETIS_LPUART_STAT_OFFSET m
  (decide (s.1 &&& LPUART_STAT_RDRF ≠ 0), s.2)

/-- The function `kinetis_txready` (lines 1284-1291). -/
def kinetis_txready (m : State) : Bool × State :=
  let s := kinetis_serialin KINETIS_LPUART_STAT_OFFSET m
  (decide (s.1 &&& LPUART_STAT_TDRE ≠ 0), s.2)

/-- The function `kinetis_send` (lines 1230-1234). -/
def kinetis_send (ch : Int) (m : State) : State :=
  kinetis_serialout KINETIS_LPUART_DATA_OFFSET (ofInt32 ch) m

/-! ## Flow control -/

/-- The function `kinetis_rxflowcontrol` (lines 1173-1219); the local `ie` is a `uint16_t`. -/
def kinetis_rxflowcontrol (cfg : Config) (_nbuffered : Nat) (upper : Bool) (m : State) :
    Bool × State :=
  if cfg.SERIAL_IFLOWCONTROL_WATERMARKS then
    if m.priv.iflow then
      if upper then
        let ie := u16 m.priv.ie
        let ie := u16 (ie &&& not32 LPUART_CTRL_RX_INTS)
        (true, kinetis_restoreuartint ie m)
      else
        (false, kinetis_rxint cfg true m)
    else (false, m)
  else (false, m)

/-! ## Lifecycle -/

/-- Call of `kinetis_lpuartreset(priv->uartbase)`. -/
def kinetis_lpuartreset (fw : Framework) (m : State) : State :=
  { m with hw := fw.kinetis_lpuartreset m.hw, trace := m.trace ++ [Access.lpuartreset] }

/-- Call of `up_lowputc(ch)`. -/
def up_lowputc (fw : Framework) (ch : Int) (m : State) : State :=
  { m with hw := fw.up_lowputc ch m.hw, trace := m.trace ++ [Access.up_lowputc ch] }

/-- The function `kinetis_setup` (lines 592-618). -/
def kinetis_setup (cfg : Config) (fw : Framework) (m : State) : Int × State :=
  let m := if cfg.SUPPRESS_LPUART_CONFIG then m
    else kinetis_lpuartconfigure fw (cfg.SERIAL_IFLOWCONTROL && m.priv.iflow)
      (cfg.SERIAL_OFLOWCONTROL && m.priv.oflow) m
  (OK, kinetis_restoreuartint 0 m)

/-- The function `kinetis_shutdown` (lines 629-640). -/
def kinetis_shutdown (fw : Framework) (m : State) : State :=
  kinetis_lpuartreset fw (kinetis_restoreuartint 0 m)

/-- The function `kinetis_attach` (lines 658-674). -/
def kinetis_attach (fw : Framework) (m : State) : Int × State :=
  let ret := fw.irq_attach m.priv.irq
  let m := { m with trace := m.trace ++ [Access.irq_attach m.priv.irq] }
  let m := if ret = OK then { m with trace := m.trace ++ [Access.up_enable_irq m.priv.irq] } else m
  (ret, m)

/-- The function `kinetis_detach` (lines 686-698). -/
def kinetis_detach (m : State) : State :=
  let m := kinetis_restoreuartint 0 m
  let m := { m with trace := m.trace ++ [Access.up_disable_irq m.priv.irq] }
  { m with trace := m.trace ++ [Access.irq_detach m.priv.irq] }

/-- The function `up_putc` (lines 1414-1435), in a build with an LPUART console whose
instance is `m.priv`. -/
def up_putc (fw : Framework) (ch : Int) (m : State) : Int × State :=
  let r := kinetis_disableuartint m
  let ie := r.1
  let m := if ch = 10 then up_lowputc fw 13 r.2 else r.2
  let m := up_lowputc fw ch m
  (ch, kinetis_restoreuartint ie m)

/-! ## Control requests -/

/-- The `c_cflag` value the `TCGETS` request reports (lines 889-899). -/
def tcgets_cflag (cfg : Config) (f : CFlags) (priv : kinetis_dev_s) : Nat :=
  (if priv.parity ≠ 0 then f.PARENB else 0) |||
  (if priv.parity = 1 then f.PARODD else 0) |||
  (if priv.stop2 ≠ 0 then f.CSTOPB else 0) |||
  (if cfg.SERIAL_OFLOWCONTROL then (if priv.oflow then f.CCTS_OFLOW else 0) else 0) |||
  (if cfg.SERIAL_IFLOWCONTROL then (if priv.iflow then f.CRTS_IFLOW else 0) else 0) |||
  f.CS8

/-- The sanity check of the `TCSETS` request (lines 917-924): true when the
request is refused. -/
def tcsets_invalid (cfg : Config) (f : CFlags) (priv : kinetis_dev_s) (c_cflag : Nat) : Bool :=
  decide (c_cflag &&& f.CSIZE ≠ f.CS8) ||
  (cfg.SERIAL_OFLOWCONTROL && (decide (c_cflag &&& f.CCTS_OFLOW ≠ 0) && decide (priv.cts_gpio = 0))) ||
  (cfg.SERIAL_IFLOWCONTROL && (decide (c_cflag &&& f.CRTS_IFLOW ≠ 0) && decide (priv.rts_gpio = 0)))

/-- The function `kinetis_ioctl` (lines 802-1044).  `arg` is the request argument and `user`
the `struct termios` object it points to when it is used as a non-null pointer;
the result is the return value, that object after the call and the new state.
The local `regval` is a `uint8_t`. -/
def kinetis_ioctl (cfg : Config) (f : CFlags) (fw : Framework) (cmd : IoctlCmd) (arg : Nat)
    (user : termios) (m : State) : Int × termios × State :=
  match cmd with
  | IoctlCmd.TIOCSERGSTRUCT =>
    if cfg.SERIAL_TIOCSERGSTRUCT then
      if arg = 0 then (-EINVAL, user, m) else (OK, user, m)
    else (-ENOTTY, user, m)
  | IoctlCmd.TIOCSSINGLEWIRE =>
    if cfg.KINETIS_UART_SINGLEWIRE then
      let r := kinetis_serialin KINETIS_LPUART_CTRL_OFFSET m
      let regval := u8 r.1
      let regval :=
        if arg = SER_SINGLEWIRE_ENABLED
        then u8 (regval ||| (LPUART_CTRL_LOOPS ||| LPUART_CTRL_RSRC))
        else u8 (regval &&& not32 (LPUART_CTRL_LOOPS ||| LPUART_CTRL_RSRC))
      (OK, user, kinetis_serialout KINETIS_LPUART_CTRL_OFFSET regval r.2)
    else (-ENOTTY, user, m)
  | IoctlCmd.TCGETS =>
    if cfg.SERIAL_TERMIOS then
      if arg = 0 then (-EINVAL, user, m)
      else
        let t := fw.cfsetispeed user m.priv.baud
        (OK, { t with c_cflag := tcgets_cflag cfg f m.priv }, m)
    else (-ENOTTY, user, m)
  | IoctlCmd.TCSETS =>
    if cfg.SERIAL_TERMIOS then
      if arg = 0 then (-EINVAL, user, m)
      else if tcsets_invalid cfg f m.priv user.c_cflag then (-EINVAL, user, m)
      else
        let parity :=
          if user.c_cflag &&& f.PARENB ≠ 0
          then (if user.c_cflag &&& f.PARODD ≠ 0 then 1 else 2)
          else 0
        let stop2 := if user.c_cflag &&& f.CSTOPB ≠ 0 then 1 else 0
        let p := { m.priv with parity := parity, stop2 := stop2 }
        let p := if cfg.SERIAL_OFLOWCONTROL
          then { p with oflow := decide (user.c_cflag &&& f.CCTS_OFLOW ≠ 0) } else p
        let oflow := if cfg.SERIAL_OFLOWCONTROL then p.oflow else false
        let p := if cfg.SERIAL_IFLOWCONTROL
          then { p with iflow := decide (user.c_cflag &&& f.CRTS_IFLOW ≠ 0) } else p
        let iflow := if cfg.SERIAL_IFLOWCONTROL then p.iflow else false
        let p := { p with baud := u32 (fw.cfgetispeed user) }
        (OK, user, kinetis_lpuartconfigure fw iflow oflow { m with priv := p })
    else (-ENOTTY, user, m)
  | IoctlCmd.TIOCSBRK =>
    if cfg.KINETIS_UART_BREAKS then
      let s := kinetis_serialin KINETIS_LPUART_STAT_OFFSET m
      let regval := u8 s.1
      let regval := u8 (regval &&& not32 LPUART_STAT_BRK13)
      let regval := if cfg.KINETIS_UART_EXTEDED_BREAK then u8 (regval ||| LPUART_STAT_BRK13) else regval
      let m := kinetis_serialout LPUART_STAT_BRK13 regval s.2
      let c := kinetis_serialin KINETIS_LPUART_CTRL_OFFSET m
      let regval := u8 c.1
      let regval := u8 (regval ||| LPUART_CTRL_SBK)
      let m := kinetis_serialout KINETIS_LPUART_CTRL_OFFSET regval c.2
      if cfg.KINETIS_SERIALBRK_BSDCOMPAT then
        (OK, user, kinetis_txint cfg fw false m)
      else
        let regval := u8 (regval &&& not32 LPUART_CTRL_SBK)
        (OK, user, kinetis_serialout KINETIS_LPUART_CTRL_OFFSET regval m)
    else (-ENOTTY, user, m)
  | IoctlCmd.TIOCCBRK =>
    if cfg.KINETIS_UART_BREAKS then
      let c := kinetis_serialin KINETIS_LPUART_CTRL_OFFSET m
      let regval := u8 c.1
      let regval := u8 (regval &&& not32 LPUART_CTRL_SBK)
      let m := kinetis_serialout KINETIS_LPUART_CTRL_OFFSET regval c.2
      if cfg.KINETIS_SERIALBRK_BSDCOMPAT then
        (OK, user, kinetis_txint cfg fw true m)
      else (OK, user, m)
    else (-ENOTTY, user, m)
  | IoctlCmd.other _ => (-ENOTTY, user, m)

/-! ## Concrete builds, instances and calls used in the examples -/

/-- A build with flow control, watermarks, termios, single-wire and BSD breaks. -/
def buildStd : Config :=
  { SUPPRESS_SERIAL_INTS := false, SUPPRESS_LPUART_CONFIG := false,
    SERIAL_IFLOWCONTROL := true, SERIAL_OFLOWCONTROL := true,
    SERIAL_IFLOWCONTROL_WATERMARKS := true, SERIAL_TERMIOS := true,
    SERIAL_TIOCSERGSTRUCT := false, KINETIS_UART_SINGLEWIRE := true,
    KINETIS_UART_BREAKS := true, KINETIS_UART_EXTEDED_BREAK := false,
    KINETIS_SERIALBRK_BSDCOMPAT := true }

/-- A framework whose callbacks leave the instance and the registers alone. -/
def fwIdle : Framework :=
  { uart_recvchars := fun p h => (p, h), uart_xmitchars := fun p h => (p, h),
    kinetis_lpuartconfigure := fun _ _ _ _ _ _ _ h => h, kinetis_lpuartreset := fun h => h,
    up_lowputc := fun _ h => h, irq_attach := fun _ => 0,
    cfsetispeed := fun t b => { t with c_speed := b }, cfgetispeed := fun t => t.c_speed }

/-- An instance with RTS flow control configured and no interrupt enabled. -/
def privIdle : kinetis_dev_s :=
  { uartbase := 0, baud := 115200, clock := 48000000, ie := 0, irq := 0, parity := 0,
    bits := 8, stop2 := 0, iflow := true, oflow := false, rts_gpio := 1, cts_gpio := 0 }

/-- A port with no interrupt enabled, in the shadow and in CTRL. -/
def idle : State :=
  { priv := privIdle, hw := { ctrl := 0, stat := [], data := [] }, trace := [] }

/-- A port with the transmitter and receiver on and the receive and error
interrupts enabled, in the shadow and in CTRL; `stat` and `data` are the values
the next reads of STAT and DATA return. -/
def rxArmed (stat data : List Nat) : State :=
  { priv := { privIdle with ie := LPUART_CTRL_RX_INTS ||| LPUART_CTRL_ERROR_INTS },
    hw := { ctrl := LPUART_CTRL_TE ||| LPUART_CTRL_RE ||| LPUART_CTRL_RX_INTS |||
              LPUART_CTRL_ERROR_INTS,
            stat := stat, data := data },
    trace := [] }

/-- A call of one of the two interrupt-enable toggles. -/
inductive IntCall where
  | rxint (enable : Bool)
  | txint (enable : Bool)
deriving DecidableEq, Repr

/-- Run one interrupt-enable toggle. -/
def IntCall.run (cfg : Config) (fw : Framework) : IntCall → State → State
  | IntCall.rxint e, m => kinetis_rxint cfg e m
  | IntCall.txint e, m => kinetis_txint cfg fw e m

/-- Run a sequence of interrupt-enable toggles, first call first. -/
def runIntCalls (cfg : Config) (fw : Framework) (calls : List IntCall) (m : State) : State :=
  calls.foldl (fun st c => c.run cfg fw st) m

/-- The interrupt-enable bits of a CTRL value: the bits of
`LPUART_CTRL_ALL_INTS` and the four error enables. -/
def intEnableBits (c : Nat) : Nat := c &&& (LPUART_CTRL_ALL_INTS ||| LPUART_CTRL_ERROR_INTS)

/-- True when the trace contains a read of DATA that is followed, later in the
trace, by a write to STAT. -/
def dataReadBeforeStatWrite : List Access → Bool
  | [] => false
  | Access.serialin offset _ :: rest =>
    (decide (offset = KINETIS_LPUART_DATA_OFFSET) &&
      rest.any (fun a => match a with
        | Access.serialout o _ => decide (o = KINETIS_LPUART_STAT_OFFSET)
        | _ => false)) || dataReadBeforeStatWrite rest
  | _ :: rest => dataReadBeforeStatWrite rest

/-- The parity setting a `c_cflag` value asks for, as `TCSETS` decodes it
(lines 930-937): 0 none, 1 odd, 2 even. -/
def cflagParity (f : CFlags) (c_cflag : Nat) : Nat :=
  if c_cflag &&& f.PARENB ≠ 0 then (if c_cflag &&& f.PARODD ≠ 0 then 1 else 2) else 0

/-- One layout of the `c_cflag` masks (character size in bits 4-5). -/
def cflagsA : CFlags :=
  { CSIZE := 3 <<< 4, CS8 := 3 <<< 4, CSTOPB := 1 <<< 6, PARENB := 1 <<< 8, PARODD := 1 <<< 9,
    CCTS_OFLOW := 1 <<< 29, CRTS_IFLOW := 1 <<< 31 }

/-- A second layout of the `c_cflag` masks (character size in bits 0-1). -/
def cflagsB : CFlags :=
  { CSIZE := 3, CS8 := 3, CSTOPB := 1 <<< 2, PARENB := 1 <<< 4, PARODD := 1 <<< 5,
    CCTS_OFLOW := 1 <<< 8, CRTS_IFLOW := 1 <<< 9 }

/-- An idle port whose instance is configured for 9-bit words. -/
def nineBit : State := { idle with priv := { privIdle with bits := 9 } }

/-- A termios asking for even parity, two stop bits and 8-bit words at 57600. -/
def evenTwoStop (f : CFlags) : termios :=
  { c_cflag := f.CS8 ||| f.PARENB ||| f.CSTOPB, c_speed := 57600 }

/-- Modelled from the spec: CTRL parity type, bit 0 (header not in the excerpt). -/
def LPUART_CTRL_PT : Nat := 1 <<< 0
/-- Modelled from the spec: CTRL parity enable, bit 1 (header not in the excerpt). -/
def LPUART_CTRL_PE : Nat := 1 <<< 1
/-- Modelled from the spec: CTRL 9-bit or 8-bit mode select, bit 4 (header not in the excerpt). -/
def LPUART_CTRL_M : Nat := 1 <<< 4

/-- A port with the transmitter and receiver on and the receive, error and
transmit interrupts enabled, in the shadow and in CTRL. -/
def rxtxArmed (stat data : List Nat) : State :=
  { priv := { privIdle with
      ie := LPUART_CTRL_RX_INTS ||| LPUART_CTRL_ERROR_INTS ||| LPUART_CTRL_TX_INTS },
    hw := { ctrl := LPUART_CTRL_TE ||| LPUART_CTRL_RE ||| LPUART_CTRL_RX_INTS |||
              LPUART_CTRL_ERROR_INTS ||| LPUART_CTRL_TX_INTS,
            stat := stat, data := data },
    trace := [] }

/-- A port with the receive and error interrupts enabled whose status register
reports RDRF together with TDRE at the first read and TDRE alone at the
second. -/
def rdrfTdre : State :=
  rxArmed [LPUART_STAT_RDRF ||| LPUART_STAT_TDRE, LPUART_STAT_TDRE] [65]

/-- A framework whose transmit callback finds nothing queued and turns the
transmit interrupt off through the driver itself, `kinetis_txint(dev, false)`
(the callback may call back into the driver, see lines 1258-1259); the register
accesses the callback makes are not added to the trace.  Its other members are
those of `fwIdle`. -/
def fwDrained : Framework :=
  { fwIdle with
    uart_xmitchars := fun p h =>
      ((kinetis_txint buildStd fwIdle false { priv := p, hw := h, trace := [] }).priv,
       (kinetis_txint buildStd fwIdle false { priv := p, hw := h, trace := [] }).hw) }

end KinetisLpserial

/-! ## W25 flash partitions (boards/arm/at32/at32f437-mini/src/at32_w25.c) -/

namespace At32W25

/-- The value `OK`. -/
def OK : Int := 0

/-- The errno value `ENODEV`. -/
def ENODEV : Int := 19

/-- The constant `W25_SPI_PORT` (line 54). -/
def W25_SPI_PORT : Int := 1

/-- The constant `W25QXX_FLASH_MINOR` (line 83). -/
def W25QXX_FLASH_MINOR : Int := 0

/-- The constant `FLASH_CONFIG_PART_NUMBER` (line 78). -/
def FLASH_CONFIG_PART_NUMBER : Int := 0

/-- The partition list `PART_LIST` (line 85), sizes in KB. -/
def PART_LIST : String := "512, 4096, 1024"

/-- The C library predicate `isdigit`. -/
def isdigit (c : Char) : Bool := decide ('0' ≤ c) && decide (c ≤ '9')

/-- The C library predicate `isspace` in the C locale. -/
def isspace (c : Char) : Bool :=
  decide (c = ' ') || (decide (9 ≤ c.toNat) && decide (c.toNat ≤ 13))

/-- Decimal value of the leading digits of a string, continuing from `acc`. -/
def digitsValue : Int → List Char → Int
  | acc, [] => acc
  | acc, c :: cs =>
    if isdigit c then digitsValue (acc * 10 + ((c.toNat : Int) - 48)) cs else acc

/-- The C library function `atoi`: white space, an optional sign, then decimal
digits; values that overflow `int` are outside the model. -/
def atoi (s : List Char) : Int :=
  match s.dropWhile isspace with
  | '-' :: rest => - digitsValue 0 rest
  | '+' :: rest => digitsValue 0 rest
  | rest => digitsValue 0 rest

/-- The fields of `struct mtd_geometry_s` the function reads (both `uint32_t`). -/
structure mtd_geometry_s where
  blocksize : Nat
  erasesize : Nat
deriving DecidableEq, Repr

/-- Build configuration: the preprocessor symbols the function tests.
`HAVE_W25` stands for the outcome of lines 60-69, `SMARTFS` for
`CONFIG_MTD_SMART && CONFIG_FS_SMARTFS`. -/
structure BoardConfig where
  HAVE_W25 : Bool
  FS_FAT : Bool
  MTD_CONFIG : Bool
  SMARTFS : Bool
deriving DecidableEq, Repr

/-- What the code outside this file answers: whether the SPI bus and the W25
driver return a device, the return value of the FTL layer, and the return value
and result of the geometry request. -/
structure Board where
  spi_ok : Bool
  mtd_ok : Bool
  ftl_ret : Int
  geometry_ret : Int
  geo : mtd_geometry_s
deriving DecidableEq, Repr

/-- One call the function makes into other code. -/
inductive Call where
  | spibus (port : Int)
  | w25
  | ftl (minor : Int)
  | geometry
  | mtd_partition (firstblock nblocks : Int)
  | mtdconfig_register (partno : Int)
  | smart (minor partno : Int)
deriving DecidableEq, Repr

/-- The partitions created in a trace of calls, as (first block, number of
blocks), in order of creation. -/
def partitions (tr : List Call) : List (Int × Int) :=
  tr.filterMap (fun c => match c with
    | Call.mtd_partition firstblock nblocks => some (firstblock, nblocks)
    | _ => none)

/-- The pointer update at the end of the loop body (lines 234-242): skip the
digits, then the commas and blanks. -/
def nextSize (ptr : List Char) : List Char :=
  (ptr.dropWhile isdigit).dropWhile (fun c => decide (c = ',') || decide (c = ' '))

/-- The `while (*ptr != 0)` loop of `at32_w25initialize` (lines 181-247).  `fuel`
bounds the number of passes, `none` means the bound was reached.  The `int`
arithmetic is exact (no overflow) and division is C division; a zero
`erasesize` or `blocksize` is outside the model. -/
def partitionLoop (cfg : BoardConfig) (erasesize blocksize : Int) :
    Nat → List Char → Int → Int → List Call → Option (Int × List Call)
  | 0, _, _, _, _ => none
  | _ + 1, [], _, _, tr => some (OK, tr)
  | fuel + 1, c :: cs, partno, partoffset, tr =>
    let partsize := atoi (c :: cs)
    let partszbytes := partsize * 2 ^ 10
    if partszbytes < erasesize then some (-1, tr)
    else if Int.tmod partszbytes erasesize ≠ 0 then some (-1, tr)
    else
      let tr := tr ++ [Call.mtd_partition partoffset (Int.tdiv partszbytes blocksize)]
      let partoffset := partoffset + Int.tdiv partszbytes blocksize
      let tr :=
        if cfg.MTD_CONFIG && decide (FLASH_CONFIG_PART_NUMBER = partno)
        then tr ++ [Call.mtdconfig_register partno]
        else if cfg.SMARTFS then tr ++ [Call.smart W25QXX_FLASH_MINOR partno]
        else tr
      partitionLoop cfg erasesize blocksize fuel (nextSize (c :: cs)) (partno + 1) partoffset tr

/-- The function `at32_w25initialize` (lines 99-260). -/
def at32_w25initialize (cfg : BoardConfig) (env : Board) (fuel : Nat) (minor : Int) :
    Option (Int × List Call) :=
  if cfg.HAVE_W25 then
    if env.spi_ok then
      if env.mtd_ok then
        if cfg.FS_FAT then
          if env.ftl_ret < 0
          then some (env.ftl_ret, [Call.spibus W25_SPI_PORT, Call.w25, Call.ftl minor])
          else some (OK, [Call.spibus W25_SPI_PORT, Call.w25, Call.ftl minor])
        else
          if env.geometry_ret < 0
          then some (env.geometry_ret, [Call.spibus W25_SPI_PORT, Call.w25, Call.geometry])
          else
            partitionLoop cfg (KinetisLpserial.toInt32 env.geo.erasesize)
              (KinetisLpserial.toInt32 env.geo.blocksize) fuel PART_LIST.toList 0 64
              [Call.spibus W25_SPI_PORT, Call.w25, Call.geometry]
      else some (-ENODEV, [Call.spibus W25_SPI_PORT, Call.w25])
    else some (-ENODEV, [Call.spibus W25_SPI_PORT])
  else some (OK, [])

/-- A build with SMART partitions and the configuration partition. -/
def boardStd : BoardConfig :=
  { HAVE_W25 := true, FS_FAT := false, MTD_CONFIG := true, SMARTFS := true }

/-- A board whose flash has 256-byte blocks and erase blocks of `erasesize`
bytes. -/
def w25Board (erasesize : Nat) : Board :=
  { spi_ok := true, mtd_ok := true, ftl_ret := 0, geometry_ret := 0,
    geo := { blocksize := 256, erasesize := erasesize } }

end At32W25

namespace KinetisLpserial

/-! ## Machine-integer and bit lemmas -/

theorem u32_lt (x : Nat) : u32 x < 2 ^ 32 := Nat.mod_lt _ (by decide)

theorem u32_of_lt {x : Nat} (h : x < 2 ^ 32) : u32 x = x := Nat.mod_eq_of_lt h

theorem u32_and_right (x : Nat) {y : Nat} (h : y < 2 ^ 32) : u32 (x &&& y) = x &&& y :=
  u32_of_lt (Nat.and_lt_two_pow x h)

theorem u32_and_errors (x : Nat) : u32 (x &&& LPUART_STAT_ERRORS) = x &&& LPUART_STAT_ERRORS :=
  u32_and_right x (by decide)

theorem u32_u32 (x : Nat) : u32 (u32 x) = u32 x := u32_of_lt (u32_lt x)

theorem qualify_trace (m : State) :
    (kinetis_interrupt_qualify m).2.trace = m.trace ++
      [Access.serialin KINETIS_LPUART_STAT_OFFSET (getreg32 KINETIS_LPUART_STAT_OFFSET m.hw),
       Access.serialin KINETIS_LPUART_CTRL_OFFSET (getreg32 KINETIS_LPUART_CTRL_OFFSET m.hw)] := by
  simp [kinetis_interrupt_qualify, kinetis_serialin, getreg32, afterRead,
    KINETIS_LPUART_STAT_OFFSET, KINETIS_LPUART_CTRL_OFFSET]

theorem qualify_priv (m : State) : (kinetis_interrupt_qualify m).2.priv = m.priv := by
  simp [kinetis_interrupt_qualify, kinetis_serialin]

theorem qualify_hw (m : State) :
    (kinetis_interrupt_qualify m).2.hw = { m.hw with stat := m.hw.stat.tail } := by
  simp [kinetis_interrupt_qualify, kinetis_serialin, afterRead,
    KINETIS_LPUART_STAT_OFFSET, KINETIS_LPUART_CTRL_OFFSET, KINETIS_LPUART_DATA_OFFSET]

theorem qualify_status (m : State) :
    (kinetis_interrupt_qualify m).1 =
      getreg32 KINETIS_LPUART_STAT_OFFSET m.hw &&&
        LPUART_CTRL2STAT (getreg32 KINETIS_LPUART_CTRL_OFFSET m.hw) := by
  simp [kinetis_interrupt_qualify, kinetis_serialin, getreg32, afterRead,
    KINETIS_LPUART_STAT_OFFSET, KINETIS_LPUART_CTRL_OFFSET]

theorem and_two_pow_eq (x i : Nat) : x &&& 2 ^ i = if x.testBit i then 2 ^ i else 0 := by
  apply Nat.eq_of_testBit_eq
  intro j
  by_cases hx : x.testBit i <;> by_cases hij : i = j
  · subst hij; simp [hx]
  · simp [hx, Nat.testBit_two_pow, hij]
  · subst hij; simp [hx]
  · simp [hx, Nat.testBit_two_pow, hij]

theorem and_bit_ne_zero (x i : Nat) : x &&& 1 <<< i ≠ 0 ↔ x.testBit i = true := by
  rw [Nat.one_shiftLeft, and_two_pow_eq]
  by_cases hx : x.testBit i <;> simp [hx]

theorem and_bit_eq_zero (x i : Nat) : x &&& 1 <<< i = 0 ↔ x.testBit i = false := by
  rw [Nat.one_shiftLeft, and_two_pow_eq]
  by_cases hx : x.testBit i <;> simp [hx]

theorem testBit_ctrl2stat (c i : Nat) :
    (LPUART_CTRL2STAT c).testBit i =
      ((c.testBit (8 + i) && LPUART_CTRL_ERROR_INTS.testBit (8 + i)) ||
        (c.testBit i && LPUART_CTRL_TR_INTS.testBit i)) := by
  simp [LPUART_CTRL2STAT]

theorem qualified_rdrf (s c : Nat) :
    (s &&& LPUART_CTRL2STAT c) &&& LPUART_STAT_RDRF ≠ 0 ↔
      (s &&& LPUART_STAT_RDRF ≠ 0 ∧ c &&& LPUART_CTRL_RIE ≠ 0) := by
  have h1 : LPUART_CTRL_ERROR_INTS.testBit 29 = false := by decide
  have h2 : LPUART_CTRL_TR_INTS.testBit 21 = true := by decide
  simp only [LPUART_STAT_RDRF, LPUART_CTRL_RIE, and_bit_ne_zero, Nat.testBit_and,
    testBit_ctrl2stat, h1, h2]
  simp

theorem qualified_tdre (s c : Nat) :
    (s &&& LPUART_CTRL2STAT c) &&& LPUART_STAT_TDRE ≠ 0 ↔
      (s &&& LPUART_STAT_TDRE ≠ 0 ∧ c &&& LPUART_CTRL_TIE ≠ 0) := by
  have h1 : LPUART_CTRL_ERROR_INTS.testBit 31 = false := by decide
  have h2 : LPUART_CTRL_TR_INTS.testBit 23 = true := by decide
  simp only [LPUART_STAT_TDRE, LPUART_CTRL_TIE, and_bit_ne_zero, Nat.testBit_and,
    testBit_ctrl2stat, h1, h2]
  simp

/-- C2: a pass of `kinetis_interrupt` that starts at the state `m` reads STAT
(value `s`) and CTRL (value `c`).  When `s & LPUART_CTRL2STAT(c)` holds no error
bit, the pass then invokes `uart_recvchars` if and only if RDRF is set in `s`
and RIE in `c`, and after it `uart_xmitchars` if and only if TDRE is set in `s`
and TIE in `c`, and nothing else before the status is read again.  With `m0` the
state these callbacks leave, the handler goes on exactly as the handler entered
at `m0` (the next pass, with the values read there), or returns `OK` when the
status qualified at `m0` is 0: so the same holds for every later pass. -/
theorem kinetis_interrupt_pass_service (fw : Framework) (fuel : Nat) (m : State)
    (h : (getreg32 KINETIS_LPUART_STAT_OFFSET m.hw &&&
          LPUART_CTRL2STAT (getreg32 KINETIS_LPUART_CTRL_OFFSET m.hw)) &&&
        LPUART_STAT_ERRORS = 0) :
    ∃ m1 m0 : State,
      m1 = (if getreg32 KINETIS_LPUART_STAT_OFFSET m.hw &&& LPUART_STAT_RDRF ≠ 0 ∧
              getreg32 KINETIS_LPUART_CTRL_OFFSET m.hw &&& LPUART_CTRL_RIE ≠ 0
            then uart_recvchars fw (kinetis_interrupt_qualify m).2
            else (kinetis_interrupt_qualify m).2) ∧
      m0 = (if getreg32 KINETIS_LPUART_STAT_OFFSET m.hw &&& LPUART_STAT_TDRE ≠ 0 ∧
              getreg32 KINETIS_LPUART_CTRL_OFFSET m.hw &&& LPUART_CTRL_TIE ≠ 0
            then uart_xmitchars fw m1 else m1) ∧
      m0.trace = m.trace ++
        [Access.serialin KINETIS_LPUART_STAT_OFFSET (getreg32 KINETIS_LPUART_STAT_OFFSET m.hw),
         Access.serialin KINETIS_LPUART_CTRL_OFFSET (getreg32 KINETIS_LPUART_CTRL_OFFSET m.hw)] ++
        (if getreg32 KINETIS_LPUART_STAT_OFFSET m.hw &&& LPUART_STAT_RDRF ≠ 0 ∧
            getreg32 KINETIS_LPUART_CTRL_OFFSET m.hw &&& LPUART_CTRL_RIE ≠ 0
          then [Access.uart_recvchars] else []) ++
        (if getreg32 KINETIS_LPUART_STAT_OFFSET m.hw &&& LPUART_STAT_TDRE ≠ 0 ∧
            getreg32 KINETIS_LPUART_CTRL_OFFSET m.hw &&& LPUART_CTRL_TIE ≠ 0
          then [Access.uart_xmitchars] else []) ∧
      kinetis_interrupt fw (fuel + 1) m =
        (if (kinetis_interrupt_qualify m0).1 ≠ 0
          then kinetis_interrupt fw fuel m0
          else some (OK, (kinetis_interrupt_qualify m0).2)) := by
  have hq := qualify_status m
  have he : (kinetis_interrupt_qualify m).1 &&& LPUART_STAT_ERRORS = 0 := by rw [hq]; exact h
  have hr : (kinetis_interrupt_qualify m).1 &&& LPUART_STAT_RDRF ≠ 0 ↔
      (getreg32 KINETIS_LPUART_STAT_OFFSET m.hw &&& LPUART_STAT_RDRF ≠ 0 ∧
        getreg32 KINETIS_LPUART_CTRL_OFFSET m.hw &&& LPUART_CTRL_RIE ≠ 0) := by
    rw [hq]; exact qualified_rdrf _ _
  have ht : (kinetis_interrupt_qualify m).1 &&& LPUART_STAT_TDRE ≠ 0 ↔
      (getreg32 KINETIS_LPUART_STAT_OFFSET m.hw &&& LPUART_STAT_TDRE ≠ 0 ∧
        getreg32 KINETIS_LPUART_CTRL_OFFSET m.hw &&& LPUART_CTRL_TIE ≠ 0) := by
    rw [hq]; exact qualified_tdre _ _
  refine ⟨_, _, rfl, rfl, ?_, ?_⟩
  · by_cases h1 : getreg32 KINETIS_LPUART_STAT_OFFSET m.hw &&& LPUART_STAT_RDRF ≠ 0 ∧
        getreg32 KINETIS_LPUART_CTRL_OFFSET m.hw &&& LPUART_CTRL_RIE ≠ 0 <;>
    by_cases h2 : getreg32 KINETIS_LPUART_STAT_OFFSET m.hw &&& LPUART_STAT_TDRE ≠ 0 ∧
        getreg32 KINETIS_LPUART_CTRL_OFFSET m.hw &&& LPUART_CTRL_TIE ≠ 0
    · rw [if_pos h1, if_pos h2, if_pos h1, if_pos h2]
      simp [uart_recvchars, uart_xmitchars, qualify_trace]
    · rw [if_pos h1, if_neg h2, if_pos h1, if_neg h2]
      simp [uart_recvchars, qualify_trace]
    · rw [if_neg h1, if_pos h2, if_neg h1, if_pos h2]
      simp [uart_xmitchars, qualify_trace]
    · rw [if_neg h1, if_neg h2, if_neg h1, if_neg h2]
      simp [qualify_trace]
  · unfold kinetis_interrupt
    rw [kinetis_interrupt_loop]
    unfold kinetis_interrupt_pass
    rw [if_neg (not_not.mpr he)]
    dsimp only
    by_cases h1 : getreg32 KINETIS_LPUART_STAT_OFFSET m.hw &&& LPUART_STAT_RDRF ≠ 0 ∧
        getreg32 KINETIS_LPUART_CTRL_OFFSET m.hw &&& LPUART_CTRL_RIE ≠ 0 <;>
    by_cases h2 : getreg32 KINETIS_LPUART_STAT_OFFSET m.hw &&& LPUART_STAT_TDRE ≠ 0 ∧
        getreg32 KINETIS_LPUART_CTRL_OFFSET m.hw &&& LPUART_CTRL_TIE ≠ 0
    · rw [if_pos h1, if_pos h2, if_pos (hr.mpr h1), if_pos (ht.mpr h2)]
    · rw [if_pos h1, if_neg h2, if_pos (hr.mpr h1), if_neg (fun x => h2 (ht.mp x))]
    · rw [if_neg h1, if_pos h2, if_neg (fun x => h1 (hr.mp x)), if_pos (ht.mpr h2)]
    · rw [if_neg h1, if_neg h2, if_neg (fun x => h1 (hr.mp x)), if_neg (fun x => h2 (ht.mp x))]

/-! ## Error pass of the interrupt handler -/

theorem interrupt_error_eq (fw : Framework) (fuel : Nat) (m : State)
    (h : (kinetis_interrupt_qualify m).1 &&& LPUART_STAT_ERRORS ≠ 0) :
    kinetis_interrupt fw (fuel + 1) m =
      some (OK, kinetis_serialout KINETIS_LPUART_STAT_OFFSET
        ((kinetis_interrupt_qualify m).1 &&& LPUART_STAT_ERRORS)
        (if (kinetis_interrupt_qualify m).1 &&& LPUART_STAT_OR ≠ LPUART_STAT_OR
          then (kinetis_serialin KINETIS_LPUART_DATA_OFFSET (kinetis_interrupt_qualify m).2).2
          else (kinetis_interrupt_qualify m).2)) := by
  unfold kinetis_interrupt
  simp only [kinetis_interrupt_loop, kinetis_interrupt_pass, h, ne_eq, not_false_eq_true,
    if_true]

theorem and_errors_eq_or {q : Nat} (h : q &&& LPUART_STAT_ERRORS = LPUART_STAT_OR) :
    q &&& LPUART_STAT_OR = LPUART_STAT_OR := by
  have h1 : (q &&& LPUART_STAT_ERRORS) &&& LPUART_STAT_OR = q &&& LPUART_STAT_OR := by
    rw [Nat.and_assoc]
    have : LPUART_STAT_ERRORS &&& LPUART_STAT_OR = LPUART_STAT_OR := by decide
    rw [this]
  rw [← h1, h]
  decide

/-- C3: an entry of `kinetis_interrupt` whose qualified status has an error bit
returns `OK` in its first pass, for any positive bound on the passes.  Its
actions are the two entry reads, a read of DATA when OR is not in the qualified
status, and one write to STAT of exactly the qualified error bits: no framework
callback is invoked, STAT is not read again, and the instance is unchanged. -/
theorem kinetis_interrupt_error_returns (fw : Framework) (fuel : Nat) (m : State)
    (h : (kinetis_interrupt_qualify m).1 &&& LPUART_STAT_ERRORS ≠ 0) :
    ∃ m1, kinetis_interrupt fw (fuel + 1) m = some (OK, m1) ∧
      m1.priv = m.priv ∧ m1.hw.ctrl = m.hw.ctrl ∧
      m1.trace = m.trace ++
        [Access.serialin KINETIS_LPUART_STAT_OFFSET (getreg32 KINETIS_LPUART_STAT_OFFSET m.hw),
         Access.serialin KINETIS_LPUART_CTRL_OFFSET (getreg32 KINETIS_LPUART_CTRL_OFFSET m.hw)] ++
        (if (kinetis_interrupt_qualify m).1 &&& LPUART_STAT_OR ≠ LPUART_STAT_OR
          then [Access.serialin KINETIS_LPUART_DATA_OFFSET
                  (getreg32 KINETIS_LPUART_DATA_OFFSET m.hw)]
          else []) ++
        [Access.serialout KINETIS_LPUART_STAT_OFFSET
          ((kinetis_interrupt_qualify m).1 &&& LPUART_STAT_ERRORS)] := by
  refine ⟨_, interrupt_error_eq fw fuel m h, ?_, ?_, ?_⟩
  · split <;> simp [kinetis_serialin, kinetis_serialout, qualify_priv]
  · split <;> simp [kinetis_serialin, kinetis_serialout, putreg32, afterRead, qualify_hw,
      KINETIS_LPUART_STAT_OFFSET, KINETIS_LPUART_CTRL_OFFSET, KINETIS_LPUART_DATA_OFFSET]
  · split <;> simp [kinetis_serialin, kinetis_serialout, u32_and_errors, getreg32, afterRead,
      qualify_trace, qualify_hw,
      KINETIS_LPUART_STAT_OFFSET, KINETIS_LPUART_CTRL_OFFSET, KINETIS_LPUART_DATA_OFFSET]

/-- C3, witness: framing error together with RDRF, receive and error interrupts
enabled. -/
theorem kinetis_interrupt_error_returns_witness :
    (kinetis_interrupt_qualify (rxArmed [LPUART_STAT_FE ||| LPUART_STAT_RDRF] [65])).1 &&&
        LPUART_STAT_ERRORS ≠ 0 ∧
    ∃ m1, kinetis_interrupt fwIdle (0 + 1) (rxArmed [LPUART_STAT_FE ||| LPUART_STAT_RDRF] [65]) =
        some (OK, m1) ∧
      m1.priv = (rxArmed [LPUART_STAT_FE ||| LPUART_STAT_RDRF] [65]).priv ∧
      m1.hw.ctrl = (rxArmed [LPUART_STAT_FE ||| LPUART_STAT_RDRF] [65]).hw.ctrl ∧
      m1.trace = (rxArmed [LPUART_STAT_FE ||| LPUART_STAT_RDRF] [65]).trace ++
        [Access.serialin KINETIS_LPUART_STAT_OFFSET (getreg32 KINETIS_LPUART_STAT_OFFSET
            (rxArmed [LPUART_STAT_FE ||| LPUART_STAT_RDRF] [65]).hw),
         Access.serialin KINETIS_LPUART_CTRL_OFFSET (getreg32 KINETIS_LPUART_CTRL_OFFSET
            (rxArmed [LPUART_STAT_FE ||| LPUART_STAT_RDRF] [65]).hw)] ++
        (if (kinetis_interrupt_qualify (rxArmed [LPUART_STAT_FE ||| LPUART_STAT_RDRF] [65])).1 &&&
              LPUART_STAT_OR ≠ LPUART_STAT_OR
          then [Access.serialin KINETIS_LPUART_DATA_OFFSET
                  (getreg32 KINETIS_LPUART_DATA_OFFSET
                    (rxArmed [LPUART_STAT_FE ||| LPUART_STAT_RDRF] [65]).hw)]
          else []) ++
        [Access.serialout KINETIS_LPUART_STAT_OFFSET
          ((kinetis_interrupt_qualify (rxArmed [LPUART_STAT_FE ||| LPUART_STAT_RDRF] [65])).1 &&&
            LPUART_STAT_ERRORS)] :=
  ⟨by decide, kinetis_interrupt_error_returns fwIdle 0
    (rxArmed [LPUART_STAT_FE ||| LPUART_STAT_RDRF] [65]) (by decide)⟩

/-- C4, the code at a failing input: with framing error and overrun both in the
qualified status, the handler returns after the two entry reads and the write
of FE and OR to STAT; DATA is not read and the byte is not discarded. -/
theorem kinetis_interrupt_fe_with_or_skips_data_read :
    (kinetis_interrupt_qualify
        (rxArmed [LPUART_STAT_FE ||| LPUART_STAT_OR ||| LPUART_STAT_RDRF] [65])).1 &&&
      LPUART_STAT_FE ≠ 0 ∧
    kinetis_interrupt fwIdle 1
        (rxArmed [LPUART_STAT_FE ||| LPUART_STAT_OR ||| LPUART_STAT_RDRF] [65]) =
      some (OK,
        { priv := (rxArmed [] []).priv,
          hw := { ctrl := (rxArmed [] []).hw.ctrl, stat := [], data := [65] },
          trace :=
            [Access.serialin KINETIS_LPUART_STAT_OFFSET
               (LPUART_STAT_FE ||| LPUART_STAT_OR ||| LPUART_STAT_RDRF),
             Access.serialin KINETIS_LPUART_CTRL_OFFSET (rxArmed [] []).hw.ctrl,
             Access.serialout KINETIS_LPUART_STAT_OFFSET
               (LPUART_STAT_FE ||| LPUART_STAT_OR)] }) := by
  decide

/-- C5: an entry of `kinetis_interrupt` whose qualified status has OR and none
of FE, NF, PF returns `OK` in its first pass, for any positive bound on the
passes; after the two entry reads its only register access is one write of OR
to STAT, and DATA is left unread. -/
theorem kinetis_interrupt_overrun_only (fw : Framework) (fuel : Nat) (m : State)
    (h : (kinetis_interrupt_qualify m).1 &&& LPUART_STAT_ERRORS = LPUART_STAT_OR) :
    ∃ m1, kinetis_interrupt fw (fuel + 1) m = some (OK, m1) ∧
      m1.priv = m.priv ∧ m1.hw.ctrl = m.hw.ctrl ∧ m1.hw.data = m.hw.data ∧
      m1.trace = m.trace ++
        [Access.serialin KINETIS_LPUART_STAT_OFFSET (getreg32 KINETIS_LPUART_STAT_OFFSET m.hw),
         Access.serialin KINETIS_LPUART_CTRL_OFFSET (getreg32 KINETIS_LPUART_CTRL_OFFSET m.hw),
         Access.serialout KINETIS_LPUART_STAT_OFFSET LPUART_STAT_OR] := by
  have hne : (kinetis_interrupt_qualify m).1 &&& LPUART_STAT_ERRORS ≠ 0 := by
    rw [h]; decide
  have hor := and_errors_eq_or h
  refine ⟨_, interrupt_error_eq fw fuel m hne, ?_, ?_, ?_, ?_⟩
  · simp [hor, kinetis_serialout, qualify_priv]
  · simp [hor, kinetis_serialout, putreg32, qualify_hw,
      KINETIS_LPUART_STAT_OFFSET, KINETIS_LPUART_CTRL_OFFSET]
  · simp [hor, kinetis_serialout, putreg32, qualify_hw,
      KINETIS_LPUART_STAT_OFFSET, KINETIS_LPUART_CTRL_OFFSET]
  · have hu : u32 LPUART_STAT_OR = LPUART_STAT_OR := by decide
    simp [hor, h, hu, kinetis_serialout, qualify_trace]

/-- C5, witness: overrun alone, receive and error interrupts enabled. -/
theorem kinetis_interrupt_overrun_only_witness :
    (kinetis_interrupt_qualify (rxArmed [LPUART_STAT_OR] [65])).1 &&& LPUART_STAT_ERRORS =
        LPUART_STAT_OR ∧
    ∃ m1, kinetis_interrupt fwIdle (0 + 1) (rxArmed [LPUART_STAT_OR] [65]) = some (OK, m1) ∧
      m1.priv = (rxArmed [LPUART_STAT_OR] [65]).priv ∧
      m1.hw.ctrl = (rxArmed [LPUART_STAT_OR] [65]).hw.ctrl ∧
      m1.hw.data = (rxArmed [LPUART_STAT_OR] [65]).hw.data ∧
      m1.trace = (rxArmed [LPUART_STAT_OR] [65]).trace ++
        [Access.serialin KINETIS_LPUART_STAT_OFFSET
           (getreg32 KINETIS_LPUART_STAT_OFFSET (rxArmed [LPUART_STAT_OR] [65]).hw),
         Access.serialin KINETIS_LPUART_CTRL_OFFSET
           (getreg32 KINETIS_LPUART_CTRL_OFFSET (rxArmed [LPUART_STAT_OR] [65]).hw),
         Access.serialout KINETIS_LPUART_STAT_OFFSET LPUART_STAT_OR] :=
  ⟨by decide, kinetis_interrupt_overrun_only fwIdle 0 (rxArmed [LPUART_STAT_OR] [65])
    (by decide)⟩

/-- C2, witness: receive and error interrupts enabled, status RDRF together with
TDRE.  The first pass invokes `uart_recvchars` and not `uart_xmitchars`; the
second pass reads TDRE alone, which is not enabled, and the handler returns. -/
theorem kinetis_interrupt_pass_service_witness :
    (getreg32 KINETIS_LPUART_STAT_OFFSET rdrfTdre.hw &&&
        LPUART_CTRL2STAT (getreg32 KINETIS_LPUART_CTRL_OFFSET rdrfTdre.hw)) &&&
      LPUART_STAT_ERRORS = 0 ∧
    (∃ m1 m0 : State,
      m1 = (if getreg32 KINETIS_LPUART_STAT_OFFSET rdrfTdre.hw &&& LPUART_STAT_RDRF ≠ 0 ∧
              getreg32 KINETIS_LPUART_CTRL_OFFSET rdrfTdre.hw &&& LPUART_CTRL_RIE ≠ 0
            then uart_recvchars fwIdle (kinetis_interrupt_qualify rdrfTdre).2
            else (kinetis_interrupt_qualify rdrfTdre).2) ∧
      m0 = (if getreg32 KINETIS_LPUART_STAT_OFFSET rdrfTdre.hw &&& LPUART_STAT_TDRE ≠ 0 ∧
              getreg32 KINETIS_LPUART_CTRL_OFFSET rdrfTdre.hw &&& LPUART_CTRL_TIE ≠ 0
            then uart_xmitchars fwIdle m1 else m1) ∧
      m0.trace = rdrfTdre.trace ++
        [Access.serialin KINETIS_LPUART_STAT_OFFSET (getreg32 KINETIS_LPUART_STAT_OFFSET rdrfTdre.hw),
         Access.serialin KINETIS_LPUART_CTRL_OFFSET (getreg32 KINETIS_LPUART_CTRL_OFFSET rdrfTdre.hw)] ++
        (if getreg32 KINETIS_LPUART_STAT_OFFSET rdrfTdre.hw &&& LPUART_STAT_RDRF ≠ 0 ∧
            getreg32 KINETIS_LPUART_CTRL_OFFSET rdrfTdre.hw &&& LPUART_CTRL_RIE ≠ 0
          then [Access.uart_recvchars] else []) ++
        (if getreg32 KINETIS_LPUART_STAT_OFFSET rdrfTdre.hw &&& LPUART_STAT_TDRE ≠ 0 ∧
            getreg32 KINETIS_LPUART_CTRL_OFFSET rdrfTdre.hw &&& LPUART_CTRL_TIE ≠ 0
          then [Access.uart_xmitchars] else []) ∧
      kinetis_interrupt fwIdle (1 + 1) rdrfTdre =
        (if (kinetis_interrupt_qualify m0).1 ≠ 0
          then kinetis_interrupt fwIdle 1 m0
          else some (OK, (kinetis_interrupt_qualify m0).2))) ∧
    getreg32 KINETIS_LPUART_STAT_OFFSET rdrfTdre.hw = LPUART_STAT_RDRF ||| LPUART_STAT_TDRE ∧
    getreg32 KINETIS_LPUART_CTRL_OFFSET rdrfTdre.hw &&& LPUART_CTRL_ALL_INTS = LPUART_CTRL_RIE ∧
    kinetis_interrupt fwIdle 2 rdrfTdre =
      some (OK,
        { priv := (rxArmed [] []).priv,
          hw := { ctrl := (rxArmed [] []).hw.ctrl, stat := [], data := [65] },
          trace :=
            [Access.serialin KINETIS_LPUART_STAT_OFFSET (LPUART_STAT_RDRF ||| LPUART_STAT_TDRE),
             Access.serialin KINETIS_LPUART_CTRL_OFFSET (rxArmed [] []).hw.ctrl,
             Access.uart_recvchars,
             Access.serialin KINETIS_LPUART_STAT_OFFSET LPUART_STAT_TDRE,
             Access.serialin KINETIS_LPUART_CTRL_OFFSET (rxArmed [] []).hw.ctrl] }) :=
  ⟨by decide, kinetis_interrupt_pass_service fwIdle 1 rdrfTdre (by decide), by decide, by decide,
    by decide⟩

/-! ## Byte receive -/

theorem kinetis_receive_eq (m : State) :
    kinetis_receive m =
      (toInt32 (getreg32 KINETIS_LPUART_DATA_OFFSET m.hw),
       getreg32 KINETIS_LPUART_STAT_OFFSET m.hw,
       { priv := m.priv,
         hw := { m.hw with stat := m.hw.stat.tail, data := m.hw.data.tail },
         trace := m.trace ++
           [Access.serialin KINETIS_LPUART_STAT_OFFSET (getreg32 KINETIS_LPUART_STAT_OFFSET m.hw),
            Access.serialin KINETIS_LPUART_DATA_OFFSET (getreg32 KINETIS_LPUART_DATA_OFFSET m.hw)] ++
           (if getreg32 KINETIS_LPUART_STAT_OFFSET m.hw &&& LPUART_STAT_ERRORS ≠ 0
             then [Access.serialout KINETIS_LPUART_STAT_OFFSET
                     (getreg32 KINETIS_LPUART_STAT_OFFSET m.hw &&& LPUART_STAT_ERRORS)]
             else []) }) := by
  unfold kinetis_receive
  by_cases h : getreg32 KINETIS_LPUART_STAT_OFFSET m.hw &&& LPUART_STAT_ERRORS = 0
  · simp [kinetis_serialin, getreg32, afterRead, h,
      KINETIS_LPUART_STAT_OFFSET, KINETIS_LPUART_CTRL_OFFSET, KINETIS_LPUART_DATA_OFFSET] at h ⊢
    simp [h]
  · simp [kinetis_serialin, kinetis_serialout, putreg32, getreg32, afterRead, h, u32_and_errors,
      KINETIS_LPUART_STAT_OFFSET, KINETIS_LPUART_CTRL_OFFSET, KINETIS_LPUART_DATA_OFFSET] at h ⊢
    simp [h]

/-- C6, counterexample: called with STAT reading OR alone, `kinetis_receive`
reads DATA before it writes OR back to STAT. -/
theorem kinetis_receive_overrun_reads_data_first :
    getreg32 KINETIS_LPUART_STAT_OFFSET (rxArmed [LPUART_STAT_OR] [65]).hw &&&
        LPUART_STAT_ERRORS = LPUART_STAT_OR ∧
    (kinetis_receive (rxArmed [LPUART_STAT_OR] [65])).2.2.trace =
      [Access.serialin KINETIS_LPUART_STAT_OFFSET LPUART_STAT_OR,
       Access.serialin KINETIS_LPUART_DATA_OFFSET 65,
       Access.serialout KINETIS_LPUART_STAT_OFFSET LPUART_STAT_OR] ∧
    dataReadBeforeStatWrite (kinetis_receive (rxArmed [LPUART_STAT_OR] [65])).2.2.trace = true := by
  decide

/-- C6, amended: called with STAT reading OR and none of FE, NF, PF,
`kinetis_receive` reads STAT, then reads DATA once and returns that value, and
only then writes OR back to STAT. -/
theorem kinetis_receive_overrun_only (m : State)
    (h : getreg32 KINETIS_LPUART_STAT_OFFSET m.hw &&& LPUART_STAT_ERRORS = LPUART_STAT_OR) :
    (kinetis_receive m).1 = toInt32 (getreg32 KINETIS_LPUART_DATA_OFFSET m.hw) ∧
    (kinetis_receive m).2.2.trace = m.trace ++
      [Access.serialin KINETIS_LPUART_STAT_OFFSET (getreg32 KINETIS_LPUART_STAT_OFFSET m.hw),
       Access.serialin KINETIS_LPUART_DATA_OFFSET (getreg32 KINETIS_LPUART_DATA_OFFSET m.hw),
       Access.serialout KINETIS_LPUART_STAT_OFFSET LPUART_STAT_OR] := by
  have hor : LPUART_STAT_OR ≠ 0 := by decide
  rw [kinetis_receive_eq]
  simp [h, hor]

/-- C6, amended, witness: STAT reads OR alone. -/
theorem kinetis_receive_overrun_only_witness :
    getreg32 KINETIS_LPUART_STAT_OFFSET (rxArmed [LPUART_STAT_OR] [65]).hw &&&
        LPUART_STAT_ERRORS = LPUART_STAT_OR ∧
    (kinetis_receive (rxArmed [LPUART_STAT_OR] [65])).1 =
      toInt32 (getreg32 KINETIS_LPUART_DATA_OFFSET (rxArmed [LPUART_STAT_OR] [65]).hw) ∧
    (kinetis_receive (rxArmed [LPUART_STAT_OR] [65])).2.2.trace =
      (rxArmed [LPUART_STAT_OR] [65]).trace ++
      [Access.serialin KINETIS_LPUART_STAT_OFFSET
         (getreg32 KINETIS_LPUART_STAT_OFFSET (rxArmed [LPUART_STAT_OR] [65]).hw),
       Access.serialin KINETIS_LPUART_DATA_OFFSET
         (getreg32 KINETIS_LPUART_DATA_OFFSET (rxArmed [LPUART_STAT_OR] [65]).hw),
       Access.serialout KINETIS_LPUART_STAT_OFFSET LPUART_STAT_OR] :=
  ⟨by decide, kinetis_receive_overrun_only (rxArmed [LPUART_STAT_OR] [65]) (by decide)⟩

/-! ## Flow control -/

/-- C7: with watermarks compiled in, `kinetis_rxflowcontrol` returns true
exactly when `upper` is true and `priv->iflow` is true. -/
theorem kinetis_rxflowcontrol_returns (cfg : Config) (nbuffered : Nat) (upper : Bool) (m : State)
    (hW : cfg.SERIAL_IFLOWCONTROL_WATERMARKS = true) :
    ((kinetis_rxflowcontrol cfg nbuffered upper m).1 = true ↔
      (upper = true ∧ m.priv.iflow = true)) := by
  unfold kinetis_rxflowcontrol
  cases upper <;> cases hi : m.priv.iflow <;> simp [hW]

/-- C7, witness: the four combinations of `upper` and `priv->iflow`. -/
theorem kinetis_rxflowcontrol_returns_witness :
    buildStd.SERIAL_IFLOWCONTROL_WATERMARKS = true ∧
    ((kinetis_rxflowcontrol buildStd 64 true (rxArmed [] [])).1 = true ↔
      (true = true ∧ (rxArmed [] []).priv.iflow = true)) ∧
    (kinetis_rxflowcontrol buildStd 64 true (rxArmed [] [])).1 = true ∧
    (kinetis_rxflowcontrol buildStd 0 false (rxArmed [] [])).1 = false ∧
    (kinetis_rxflowcontrol buildStd 64 true
      { rxArmed [] [] with priv := { privIdle with iflow := false } }).1 = false :=
  ⟨rfl, kinetis_rxflowcontrol_returns buildStd 64 true (rxArmed [] []) rfl,
    by decide, by decide, by decide⟩

/-! ## The shadow and the control register -/

theorem testBit_u32 (x i : Nat) : (u32 x).testBit i = (decide (i < 32) && x.testBit i) :=
  Nat.testBit_mod_two_pow x 32 i

theorem testBit_u16 (x i : Nat) : (u16 x).testBit i = (decide (i < 16) && x.testBit i) :=
  Nat.testBit_mod_two_pow x 16 i

theorem testBit_u8 (x i : Nat) : (u8 x).testBit i = (decide (i < 8) && x.testBit i) :=
  Nat.testBit_mod_two_pow x 8 i

theorem u32_or (a b : Nat) : u32 (a ||| b) = u32 a ||| u32 b := by
  apply Nat.eq_of_testBit_eq
  intro i
  simp [testBit_u32, Bool.and_or_distrib_left]

theorem u32_and (a b : Nat) : u32 (a &&& b) = u32 a &&& u32 b := by
  apply Nat.eq_of_testBit_eq
  intro i
  simp only [testBit_u32, Nat.testBit_and]
  cases decide (i < 32) <;> simp

theorem or_and_mask {b M : Nat} (a : Nat) (h : b &&& M = M) : (a ||| b) &&& M = M := by
  apply Nat.eq_of_testBit_eq
  intro i
  have hi := congrArg (fun x => x.testBit i) h
  simp only [Nat.testBit_and, Nat.testBit_or] at hi ⊢
  revert hi
  cases a.testBit i <;> cases b.testBit i <;> cases M.testBit i <;> simp

theorem setuartint_priv (m : State) : (kinetis_setuartint m).priv = m.priv := by
  simp [kinetis_setuartint, kinetis_serialin, kinetis_serialout]

theorem setuartint_ctrl (m : State) :
    (kinetis_setuartint m).hw.ctrl =
      u32 ((u32 m.hw.ctrl &&& not32 LPUART_CTRL_ALL_INTS) ||| m.priv.ie) := by
  simp [kinetis_setuartint, kinetis_serialin, kinetis_serialout, putreg32, getreg32, afterRead,
    u32_u32, KINETIS_LPUART_STAT_OFFSET, KINETIS_LPUART_CTRL_OFFSET, KINETIS_LPUART_DATA_OFFSET]

theorem restoreuartint_ie (ie : Nat) (m : State) :
    (kinetis_restoreuartint ie m).priv.ie = u32 (u32 ie &&& LPUART_CTRL_ALL_INTS) := by
  simp [kinetis_restoreuartint, setuartint_priv]

theorem restoreuartint_ctrl (ie : Nat) (m : State) :
    (kinetis_restoreuartint ie m).hw.ctrl =
      u32 ((u32 m.hw.ctrl &&& not32 LPUART_CTRL_ALL_INTS) |||
        u32 (u32 ie &&& LPUART_CTRL_ALL_INTS)) := by
  simp [kinetis_restoreuartint, setuartint_ctrl]

theorem rxint_enable_ie (cfg : Config) (m : State) (hS : cfg.SUPPRESS_SERIAL_INTS = false) :
    (kinetis_rxint cfg true m).priv.ie =
      u32 (m.priv.ie ||| (LPUART_CTRL_RX_INTS ||| LPUART_CTRL_ERROR_INTS)) := by
  simp [kinetis_rxint, hS, setuartint_priv]

theorem rxint_enable_ctrl (cfg : Config) (m : State) (hS : cfg.SUPPRESS_SERIAL_INTS = false) :
    (kinetis_rxint cfg true m).hw.ctrl =
      u32 ((u32 m.hw.ctrl &&& not32 LPUART_CTRL_ALL_INTS) |||
        u32 (m.priv.ie ||| (LPUART_CTRL_RX_INTS ||| LPUART_CTRL_ERROR_INTS))) := by
  simp [kinetis_rxint, hS, setuartint_ctrl]

/-- C8: with input flow control enabled, in a build with watermarks and without
`CONFIG_SUPPRESS_SERIAL_INTS`: the call with `upper = true` returns true and
leaves RIE clear in `priv->ie` and in CTRL; the call with `upper = false`
returns false and leaves RIE and the four error enables set in `priv->ie` and
in CTRL. -/
theorem kinetis_rxflowcontrol_rx_interrupt (cfg : Config) (n1 n2 : Nat) (m : State)
    (hW : cfg.SERIAL_IFLOWCONTROL_WATERMARKS = true) (hS : cfg.SUPPRESS_SERIAL_INTS = false)
    (hi : m.priv.iflow = true) :
    (kinetis_rxflowcontrol cfg n1 true m).1 = true ∧
    (kinetis_rxflowcontrol cfg n1 true m).2.priv.ie &&& LPUART_CTRL_RIE = 0 ∧
    (kinetis_rxflowcontrol cfg n1 true m).2.hw.ctrl &&& LPUART_CTRL_RIE = 0 ∧
    (kinetis_rxflowcontrol cfg n2 false m).1 = false ∧
    (kinetis_rxflowcontrol cfg n2 false m).2.priv.ie &&&
        (LPUART_CTRL_RIE ||| LPUART_CTRL_ERROR_INTS) =
      LPUART_CTRL_RIE ||| LPUART_CTRL_ERROR_INTS ∧
    (kinetis_rxflowcontrol cfg n2 false m).2.hw.ctrl &&&
        (LPUART_CTRL_RIE ||| LPUART_CTRL_ERROR_INTS) =
      LPUART_CTRL_RIE ||| LPUART_CTRL_ERROR_INTS := by
  have hn : (not32 LPUART_CTRL_ALL_INTS).testBit 21 = false := by decide
  have hM : u32 (LPUART_CTRL_RIE ||| LPUART_CTRL_ERROR_INTS) =
      LPUART_CTRL_RIE ||| LPUART_CTRL_ERROR_INTS := by decide
  have hie : u32 (m.priv.ie ||| (LPUART_CTRL_RIE ||| LPUART_CTRL_ERROR_INTS)) &&&
      (LPUART_CTRL_RIE ||| LPUART_CTRL_ERROR_INTS) =
      LPUART_CTRL_RIE ||| LPUART_CTRL_ERROR_INTS := by
    rw [u32_or, hM]
    exact or_and_mask _ (Nat.and_self _)
  refine ⟨?_, ?_, ?_, ?_, ?_, ?_⟩
  · simp [kinetis_rxflowcontrol, hW, hi]
  · simp only [kinetis_rxflowcontrol, hW, hi, if_true, restoreuartint_ie, LPUART_CTRL_RIE,
      and_bit_eq_zero, testBit_u32, testBit_u16, Nat.testBit_and]
    simp
  · simp only [kinetis_rxflowcontrol, hW, hi, if_true, restoreuartint_ctrl, LPUART_CTRL_RIE,
      and_bit_eq_zero, testBit_u32, testBit_u16, Nat.testBit_and, Nat.testBit_or, hn]
    simp
  · simp [kinetis_rxflowcontrol, hW, hi]
  · simp only [kinetis_rxflowcontrol, hW, hi, if_true, Bool.false_eq_true, if_false,
      rxint_enable_ie cfg m hS, LPUART_CTRL_RX_INTS]
    exact hie
  · simp only [kinetis_rxflowcontrol, hW, hi, if_true, Bool.false_eq_true, if_false,
      rxint_enable_ctrl cfg m hS, LPUART_CTRL_RX_INTS]
    rw [u32_or, u32_u32]
    exact or_and_mask _ hie

/-- C8, witness: the port with receive and error interrupts enabled. -/
theorem kinetis_rxflowcontrol_rx_interrupt_witness :
    buildStd.SERIAL_IFLOWCONTROL_WATERMARKS = true ∧ buildStd.SUPPRESS_SERIAL_INTS = false ∧
    (rxArmed [] []).priv.iflow = true ∧
    ((kinetis_rxflowcontrol buildStd 64 true (rxArmed [] [])).1 = true ∧
    (kinetis_rxflowcontrol buildStd 64 true (rxArmed [] [])).2.priv.ie &&& LPUART_CTRL_RIE = 0 ∧
    (kinetis_rxflowcontrol buildStd 64 true (rxArmed [] [])).2.hw.ctrl &&& LPUART_CTRL_RIE = 0 ∧
    (kinetis_rxflowcontrol buildStd 0 false (rxArmed [] [])).1 = false ∧
    (kinetis_rxflowcontrol buildStd 0 false (rxArmed [] [])).2.priv.ie &&&
        (LPUART_CTRL_RIE ||| LPUART_CTRL_ERROR_INTS) =
      LPUART_CTRL_RIE ||| LPUART_CTRL_ERROR_INTS ∧
    (kinetis_rxflowcontrol buildStd 0 false (rxArmed [] [])).2.hw.ctrl &&&
        (LPUART_CTRL_RIE ||| LPUART_CTRL_ERROR_INTS) =
      LPUART_CTRL_RIE ||| LPUART_CTRL_ERROR_INTS) :=
  ⟨rfl, rfl, rfl, kinetis_rxflowcontrol_rx_interrupt buildStd 64 0 (rxArmed [] []) rfl rfl rfl⟩

/-! ## Line settings -/

theorem and_or_right (x y z : Nat) : (x ||| y) &&& z = (x &&& z) ||| (y &&& z) := by
  apply Nat.eq_of_testBit_eq
  intro i
  simp [Bool.and_or_distrib_right]

theorem ite_and_zero (c : Prop) [Decidable c] {F G : Nat} (h : F &&& G = 0) :
    (if c then F else 0) &&& G = 0 := by
  split <;> simp [h]

theorem cs8_and_zero {f : CFlags} {G : Nat} (h8 : f.CS8 &&& f.CSIZE = f.CS8)
    (h : G &&& f.CSIZE = 0) : f.CS8 &&& G = 0 := by
  rw [← h8, Nat.and_assoc, Nat.and_comm f.CSIZE G, h, Nat.and_zero]

theorem tcgets_cflag_csize (cfg : Config) (f : CFlags) (priv : kinetis_dev_s) (hf : f.wf) :
    tcgets_cflag cfg f priv &&& f.CSIZE = f.CS8 := by
  obtain ⟨h8, -, -, -, -, -, hS, hE, hO, hC, hR, -⟩ := hf
  simp only [tcgets_cflag, and_or_right]
  rw [ite_and_zero _ hE, ite_and_zero _ hO, ite_and_zero _ hS, h8]
  have h1 : (if cfg.SERIAL_OFLOWCONTROL = true then (if priv.oflow = true then f.CCTS_OFLOW else 0)
      else 0) &&& f.CSIZE = 0 := by
    split
    · exact ite_and_zero _ hC
    · simp
  have h2 : (if cfg.SERIAL_IFLOWCONTROL = true then (if priv.iflow = true then f.CRTS_IFLOW else 0)
      else 0) &&& f.CSIZE = 0 := by
    split
    · exact ite_and_zero _ hR
    · simp
  rw [h1, h2]
  simp

theorem tcgets_cflag_parenb (cfg : Config) (f : CFlags) (priv : kinetis_dev_s) (hf : f.wf) :
    tcgets_cflag cfg f priv &&& f.PARENB = if priv.parity ≠ 0 then f.PARENB else 0 := by
  obtain ⟨h8, -, -, -, -, -, -, hE, -, -, -, hEO, hES, hEC, hER, -⟩ := hf
  have hOE : f.PARODD &&& f.PARENB = 0 := by rw [Nat.and_comm]; exact hEO
  have hSE : f.CSTOPB &&& f.PARENB = 0 := by rw [Nat.and_comm]; exact hES
  have hCE : f.CCTS_OFLOW &&& f.PARENB = 0 := by rw [Nat.and_comm]; exact hEC
  have hRE : f.CRTS_IFLOW &&& f.PARENB = 0 := by rw [Nat.and_comm]; exact hER
  simp only [tcgets_cflag, and_or_right]
  rw [ite_and_zero _ hOE, ite_and_zero _ hSE, cs8_and_zero h8 hE]
  have h1 : (if cfg.SERIAL_OFLOWCONTROL = true then (if priv.oflow = true then f.CCTS_OFLOW else 0)
      else 0) &&& f.PARENB = 0 := by
    split
    · exact ite_and_zero _ hCE
    · simp
  have h2 : (if cfg.SERIAL_IFLOWCONTROL = true then (if priv.iflow = true then f.CRTS_IFLOW else 0)
      else 0) &&& f.PARENB = 0 := by
    split
    · exact ite_and_zero _ hRE
    · simp
  rw [h1, h2]
  split <;> simp

theorem tcgets_cflag_parodd (cfg : Config) (f : CFlags) (priv : kinetis_dev_s) (hf : f.wf) :
    tcgets_cflag cfg f priv &&& f.PARODD = if priv.parity = 1 then f.PARODD else 0 := by
  obtain ⟨h8, -, -, -, -, -, -, -, hO, -, -, hEO, -, -, -, hOS, hOC, hOR, -⟩ := hf
  have hSO : f.CSTOPB &&& f.PARODD = 0 := by rw [Nat.and_comm]; exact hOS
  have hCO : f.CCTS_OFLOW &&& f.PARODD = 0 := by rw [Nat.and_comm]; exact hOC
  have hRO : f.CRTS_IFLOW &&& f.PARODD = 0 := by rw [Nat.and_comm]; exact hOR
  simp only [tcgets_cflag, and_or_right]
  rw [ite_and_zero _ hEO, ite_and_zero _ hSO, cs8_and_zero h8 hO]
  have h1 : (if cfg.SERIAL_OFLOWCONTROL = true then (if priv.oflow = true then f.CCTS_OFLOW else 0)
      else 0) &&& f.PARODD = 0 := by
    split
    · exact ite_and_zero _ hCO
    · simp
  have h2 : (if cfg.SERIAL_IFLOWCONTROL = true then (if priv.iflow = true then f.CRTS_IFLOW else 0)
      else 0) &&& f.PARODD = 0 := by
    split
    · exact ite_and_zero _ hRO
    · simp
  rw [h1, h2]
  split <;> simp

theorem tcgets_cflag_cstopb (cfg : Config) (f : CFlags) (priv : kinetis_dev_s) (hf : f.wf) :
    tcgets_cflag cfg f priv &&& f.CSTOPB = if priv.stop2 ≠ 0 then f.CSTOPB else 0 := by
  obtain ⟨h8, -, -, -, -, -, hS, -, -, -, -, -, hES, -, -, hOS, -, -, hSC, hSR, -⟩ := hf
  have hCS : f.CCTS_OFLOW &&& f.CSTOPB = 0 := by rw [Nat.and_comm]; exact hSC
  have hRS : f.CRTS_IFLOW &&& f.CSTOPB = 0 := by rw [Nat.and_comm]; exact hSR
  simp only [tcgets_cflag, and_or_right]
  rw [ite_and_zero _ hES, ite_and_zero _ hOS, cs8_and_zero h8 hS]
  have h1 : (if cfg.SERIAL_OFLOWCONTROL = true then (if priv.oflow = true then f.CCTS_OFLOW else 0)
      else 0) &&& f.CSTOPB = 0 := by
    split
    · exact ite_and_zero _ hCS
    · simp
  have h2 : (if cfg.SERIAL_IFLOWCONTROL = true then (if priv.iflow = true then f.CRTS_IFLOW else 0)
      else 0) &&& f.CSTOPB = 0 := by
    split
    · exact ite_and_zero _ hRS
    · simp
  rw [h1, h2]
  split <;> simp

theorem ioctl_tcgets_eq (cfg : Config) (f : CFlags) (fw : Framework) (arg : Nat) (u : termios)
    (m : State) (hT : cfg.SERIAL_TERMIOS = true) (ha : arg ≠ 0) :
    kinetis_ioctl cfg f fw IoctlCmd.TCGETS arg u m =
      (OK, { fw.cfsetispeed u m.priv.baud with c_cflag := tcgets_cflag cfg f m.priv }, m) := by
  simp [kinetis_ioctl, hT, ha]

theorem ioctl_tcsets_refused (cfg : Config) (f : CFlags) (fw : Framework) (arg : Nat)
    (t : termios) (m : State) (hT : cfg.SERIAL_TERMIOS = true)
    (h : arg = 0 ∨ tcsets_invalid cfg f m.priv t.c_cflag = true) :
    kinetis_ioctl cfg f fw IoctlCmd.TCSETS arg t m = (-EINVAL, t, m) := by
  by_cases ha : arg = 0
  · simp [kinetis_ioctl, hT, ha]
  · have hi : tcsets_invalid cfg f m.priv t.c_cflag = true := h.resolve_left ha
    simp [kinetis_ioctl, hT, ha, hi]

theorem ioctl_tcsets_accepted (cfg : Config) (f : CFlags) (fw : Framework) (arg : Nat)
    (t : termios) (m : State) (hT : cfg.SERIAL_TERMIOS = true)
    (hset : (kinetis_ioctl cfg f fw IoctlCmd.TCSETS arg t m).1 = OK) :
    (kinetis_ioctl cfg f fw IoctlCmd.TCSETS arg t m).2.2.priv.parity = cflagParity f t.c_cflag ∧
    (kinetis_ioctl cfg f fw IoctlCmd.TCSETS arg t m).2.2.priv.stop2 =
      (if t.c_cflag &&& f.CSTOPB ≠ 0 then 1 else 0) ∧
    (kinetis_ioctl cfg f fw IoctlCmd.TCSETS arg t m).2.2.priv.bits = m.priv.bits := by
  by_cases h : arg = 0 ∨ tcsets_invalid cfg f m.priv t.c_cflag = true
  · rw [ioctl_tcsets_refused cfg f fw arg t m hT h] at hset
    have hne : ¬ ((-EINVAL : Int) = OK) := by decide
    exact absurd hset hne
  · have ha : arg ≠ 0 := fun e => h (Or.inl e)
    have hi : tcsets_invalid cfg f m.priv t.c_cflag = false := by
      cases hv : tcsets_invalid cfg f m.priv t.c_cflag
      · rfl
      · exact absurd (Or.inr hv) h
    simp only [kinetis_ioctl, hT, ha, hi, if_true, if_false, Bool.false_eq_true,
      kinetis_lpuartconfigure, cflagParity]
    cases cfg.SERIAL_OFLOWCONTROL <;> cases cfg.SERIAL_IFLOWCONTROL <;> simp

/-- C9: in a termios build, for well-formed `c_cflag` masks, every instance
state (whatever `priv->bits` is) and every termios that `TCSETS` accepts, a
following `TCGETS` with a non-null argument returns `OK` and reports the parity
setting and the CSTOPB flag that were set, and a word size of CS8. -/
theorem tcsets_tcgets_roundtrip (cfg : Config) (f : CFlags) (fw : Framework) (arg1 arg2 : Nat)
    (t u : termios) (m : State) (hT : cfg.SERIAL_TERMIOS = true) (hf : f.wf) (h2 : arg2 ≠ 0)
    (hset : (kinetis_ioctl cfg f fw IoctlCmd.TCSETS arg1 t m).1 = OK) :
    (kinetis_ioctl cfg f fw IoctlCmd.TCGETS arg2 u
      (kinetis_ioctl cfg f fw IoctlCmd.TCSETS arg1 t m).2.2).1 = OK ∧
    cflagParity f (kinetis_ioctl cfg f fw IoctlCmd.TCGETS arg2 u
      (kinetis_ioctl cfg f fw IoctlCmd.TCSETS arg1 t m).2.2).2.1.c_cflag =
        cflagParity f t.c_cflag ∧
    ((kinetis_ioctl cfg f fw IoctlCmd.TCGETS arg2 u
      (kinetis_ioctl cfg f fw IoctlCmd.TCSETS arg1 t m).2.2).2.1.c_cflag &&& f.CSTOPB ≠ 0 ↔
        t.c_cflag &&& f.CSTOPB ≠ 0) ∧
    (kinetis_ioctl cfg f fw IoctlCmd.TCGETS arg2 u
      (kinetis_ioctl cfg f fw IoctlCmd.TCSETS arg1 t m).2.2).2.1.c_cflag &&& f.CSIZE = f.CS8 ∧
    (kinetis_ioctl cfg f fw IoctlCmd.TCSETS arg1 t m).2.2.priv.bits = m.priv.bits := by
  obtain ⟨hp, hs, hb⟩ := ioctl_tcsets_accepted cfg f fw arg1 t m hT hset
  have hE : f.PARENB ≠ 0 := hf.2.2.1
  have hO : f.PARODD ≠ 0 := hf.2.2.2.1
  have hS : f.CSTOPB ≠ 0 := hf.2.1
  rw [ioctl_tcgets_eq cfg f fw arg2 u _ hT h2]
  refine ⟨rfl, ?_, ?_, tcgets_cflag_csize cfg f _ hf, hb⟩
  · show cflagParity f (tcgets_cflag cfg f _) = _
    unfold cflagParity at hp ⊢
    rw [tcgets_cflag_parenb cfg f _ hf, tcgets_cflag_parodd cfg f _ hf, hp]
    by_cases he : t.c_cflag &&& f.PARENB = 0 <;> by_cases ho : t.c_cflag &&& f.PARODD = 0 <;>
      simp [he, ho, hE, hO]
  · show tcgets_cflag cfg f _ &&& f.CSTOPB ≠ 0 ↔ _
    rw [tcgets_cflag_cstopb cfg f _ hf, hs]
    by_cases hc : t.c_cflag &&& f.CSTOPB = 0 <;> simp [hc, hS]

/-- C9, witness: even parity with two stop bits set on an instance configured
for 9-bit words is read back as PARENB set, PARODD clear, CSTOPB set and
CSIZE = CS8. -/
theorem tcsets_tcgets_roundtrip_witness :
    buildStd.SERIAL_TERMIOS = true ∧ cflagsA.wf ∧ (1 : Nat) ≠ 0 ∧
    (kinetis_ioctl buildStd cflagsA fwIdle IoctlCmd.TCSETS 1 (evenTwoStop cflagsA) nineBit).1 =
      OK ∧
    ((kinetis_ioctl buildStd cflagsA fwIdle IoctlCmd.TCGETS 1 { c_cflag := 0, c_speed := 0 }
      (kinetis_ioctl buildStd cflagsA fwIdle IoctlCmd.TCSETS 1
        (evenTwoStop cflagsA) nineBit).2.2).1 = OK ∧
    cflagParity cflagsA (kinetis_ioctl buildStd cflagsA fwIdle IoctlCmd.TCGETS 1
      { c_cflag := 0, c_speed := 0 }
      (kinetis_ioctl buildStd cflagsA fwIdle IoctlCmd.TCSETS 1
        (evenTwoStop cflagsA) nineBit).2.2).2.1.c_cflag =
        cflagParity cflagsA (evenTwoStop cflagsA).c_cflag ∧
    ((kinetis_ioctl buildStd cflagsA fwIdle IoctlCmd.TCGETS 1 { c_cflag := 0, c_speed := 0 }
      (kinetis_ioctl buildStd cflagsA fwIdle IoctlCmd.TCSETS 1
        (evenTwoStop cflagsA) nineBit).2.2).2.1.c_cflag &&& cflagsA.CSTOPB ≠ 0 ↔
        (evenTwoStop cflagsA).c_cflag &&& cflagsA.CSTOPB ≠ 0) ∧
    (kinetis_ioctl buildStd cflagsA fwIdle IoctlCmd.TCGETS 1 { c_cflag := 0, c_speed := 0 }
      (kinetis_ioctl buildStd cflagsA fwIdle IoctlCmd.TCSETS 1
        (evenTwoStop cflagsA) nineBit).2.2).2.1.c_cflag &&& cflagsA.CSIZE = cflagsA.CS8 ∧
    (kinetis_ioctl buildStd cflagsA fwIdle IoctlCmd.TCSETS 1
      (evenTwoStop cflagsA) nineBit).2.2.priv.bits = nineBit.priv.bits) ∧
    (kinetis_ioctl buildStd cflagsA fwIdle IoctlCmd.TCGETS 1 { c_cflag := 0, c_speed := 0 }
      (kinetis_ioctl buildStd cflagsA fwIdle IoctlCmd.TCSETS 1
        (evenTwoStop cflagsA) nineBit).2.2).2.1.c_cflag =
      cflagsA.PARENB ||| cflagsA.CSTOPB ||| cflagsA.CS8 ∧
    nineBit.priv.bits = 9 ∧ cflagsB.wf :=
  ⟨rfl, by decide, by decide, by decide,
    tcsets_tcgets_roundtrip buildStd cflagsA fwIdle 1 1 (evenTwoStop cflagsA)
      { c_cflag := 0, c_speed := 0 } nineBit rfl (by decide) (by decide) (by decide),
    by decide, rfl, by decide⟩

/-- C10: in a termios build, a `TCSETS` request whose CSIZE field is not CS8, or
that asks for CCTS_OFLOW while `priv->cts_gpio` is 0, or for CRTS_IFLOW while
`priv->rts_gpio` is 0 (each check in the builds that compile it), returns
`-EINVAL` and leaves the instance, the registers and the trace as they were:
no field is changed and `kinetis_lpuartconfigure` is not called. -/
theorem ioctl_tcsets_rejects (cfg : Config) (f : CFlags) (fw : Framework) (arg : Nat)
    (t : termios) (m : State) (hT : cfg.SERIAL_TERMIOS = true)
    (h : t.c_cflag &&& f.CSIZE ≠ f.CS8 ∨
      (cfg.SERIAL_OFLOWCONTROL = true ∧ t.c_cflag &&& f.CCTS_OFLOW ≠ 0 ∧ m.priv.cts_gpio = 0) ∨
      (cfg.SERIAL_IFLOWCONTROL = true ∧ t.c_cflag &&& f.CRTS_IFLOW ≠ 0 ∧ m.priv.rts_gpio = 0)) :
    kinetis_ioctl cfg f fw IoctlCmd.TCSETS arg t m = (-EINVAL, t, m) := by
  apply ioctl_tcsets_refused cfg f fw arg t m hT
  right
  unfold tcsets_invalid
  rcases h with h | ⟨h1, h2, h3⟩ | ⟨h1, h2, h3⟩
  · simp [h]
  · simp [h1, h2, h3]
  · simp [h1, h2, h3]

/-- C10, witness: a 7-bit word size is refused; so are CTS flow control on an
instance without a CTS pin and RTS flow control on one without an RTS pin. -/
theorem ioctl_tcsets_rejects_witness :
    buildStd.SERIAL_TERMIOS = true ∧
    ((2 <<< 4 : Nat) &&& cflagsA.CSIZE ≠ cflagsA.CS8 ∨
      (buildStd.SERIAL_OFLOWCONTROL = true ∧ (2 <<< 4 : Nat) &&& cflagsA.CCTS_OFLOW ≠ 0 ∧
        idle.priv.cts_gpio = 0) ∨
      (buildStd.SERIAL_IFLOWCONTROL = true ∧ (2 <<< 4 : Nat) &&& cflagsA.CRTS_IFLOW ≠ 0 ∧
        idle.priv.rts_gpio = 0)) ∧
    kinetis_ioctl buildStd cflagsA fwIdle IoctlCmd.TCSETS 1
        { c_cflag := 2 <<< 4, c_speed := 9600 } idle =
      (-EINVAL, { c_cflag := 2 <<< 4, c_speed := 9600 }, idle) ∧
    kinetis_ioctl buildStd cflagsA fwIdle IoctlCmd.TCSETS 1
        { c_cflag := cflagsA.CS8 ||| cflagsA.CCTS_OFLOW, c_speed := 9600 } idle =
      (-EINVAL, { c_cflag := cflagsA.CS8 ||| cflagsA.CCTS_OFLOW, c_speed := 9600 }, idle) ∧
    kinetis_ioctl buildStd cflagsA fwIdle IoctlCmd.TCSETS 1
        { c_cflag := cflagsA.CS8 ||| cflagsA.CRTS_IFLOW, c_speed := 9600 }
        { idle with priv := { privIdle with rts_gpio := 0 } } =
      (-EINVAL, { c_cflag := cflagsA.CS8 ||| cflagsA.CRTS_IFLOW, c_speed := 9600 },
        { idle with priv := { privIdle with rts_gpio := 0 } }) :=
  ⟨rfl, by decide,
    ioctl_tcsets_rejects buildStd cflagsA fwIdle 1 { c_cflag := 2 <<< 4, c_speed := 9600 } idle
      rfl (by decide),
    by decide, by decide⟩

/-! ## Interrupt-enable toggles against the control register -/

/-- C1, the code at a failing input: from a port whose interrupt-enable bits in
CTRL equal `priv->ie` (both 0), `kinetis_rxint(dev, true)` followed by
`kinetis_rxint(dev, false)` leaves `priv->ie` at 0 while ORIE, FEIE, NEIE and
PEIE are still set in CTRL. -/
theorem rxint_disable_leaves_error_enables :
    intEnableBits idle.hw.ctrl = idle.priv.ie ∧
    intEnableBits (runIntCalls buildStd fwIdle [IntCall.rxint true] idle).hw.ctrl =
      (runIntCalls buildStd fwIdle [IntCall.rxint true] idle).priv.ie ∧
    (runIntCalls buildStd fwIdle [IntCall.rxint true, IntCall.rxint false] idle).priv.ie = 0 ∧
    intEnableBits
        (runIntCalls buildStd fwIdle [IntCall.rxint true, IntCall.rxint false] idle).hw.ctrl =
      LPUART_CTRL_ORIE ||| LPUART_CTRL_FEIE ||| LPUART_CTRL_NEIE ||| LPUART_CTRL_PEIE ∧
    intEnableBits
        (runIntCalls buildStd fwIdle [IntCall.rxint true, IntCall.rxint false] idle).hw.ctrl ≠
      (runIntCalls buildStd fwIdle [IntCall.rxint true, IntCall.rxint false] idle).priv.ie := by
  decide

/-! ## Further bit lemmas -/

theorem testBit_of_lt_32 {x i : Nat} (hx : x < 2 ^ 32) (hi : 32 ≤ i) : x.testBit i = false :=
  Nat.testBit_lt_two_pow (Nat.lt_of_lt_of_le hx (Nat.pow_le_pow_right (by decide) hi))

theorem testBit_not32 (x i : Nat) :
    (not32 x).testBit i = (decide (i < 32) && !(x.testBit i)) := by
  have h : (4294967295 : Nat) = 2 ^ 32 - 1 := by norm_num
  unfold not32
  rw [h, Nat.testBit_xor, Nat.testBit_two_pow_sub_one, testBit_u32]
  cases decide (i < 32) <;> cases x.testBit i <;> rfl

theorem u32_and_of_lt (x : Nat) {M : Nat} (hM : M < 2 ^ 32) : u32 x &&& M = x &&& M := by
  apply Nat.eq_of_testBit_eq
  intro i
  simp only [Nat.testBit_and, testBit_u32]
  by_cases hi : i < 32
  · simp [hi]
  · simp [hi, testBit_of_lt_32 hM (Nat.le_of_not_lt hi)]

theorem not32_lt (x : Nat) : not32 x < 2 ^ 32 := by
  apply Nat.lt_pow_two_of_testBit
  intro i hi
  rw [testBit_not32]
  have : ¬ i < 32 := Nat.not_lt.mpr hi
  simp [this]

theorem and_not32_clear (x M : Nat) : (x &&& not32 M) &&& M = 0 := by
  apply Nat.eq_of_testBit_eq
  intro i
  simp only [Nat.testBit_and, testBit_not32, Nat.zero_testBit]
  cases x.testBit i <;> cases decide (i < 32) <;> cases M.testBit i <;> rfl

/-! ## Shadow toggles, step by step -/

theorem getreg32_ctrl (hw : Lpuart) : getreg32 KINETIS_LPUART_CTRL_OFFSET hw = u32 hw.ctrl := by
  simp [getreg32]

theorem setuartint_eq (m : State) :
    kinetis_setuartint m =
      { priv := m.priv,
        hw :=
          { m.hw with
            ctrl :=
              u32 ((getreg32 KINETIS_LPUART_CTRL_OFFSET m.hw &&& not32 LPUART_CTRL_ALL_INTS) |||
                m.priv.ie) },
        trace := m.trace ++
          [Access.serialin KINETIS_LPUART_CTRL_OFFSET (getreg32 KINETIS_LPUART_CTRL_OFFSET m.hw),
           Access.serialout KINETIS_LPUART_CTRL_OFFSET
             (u32 ((getreg32 KINETIS_LPUART_CTRL_OFFSET m.hw &&& not32 LPUART_CTRL_ALL_INTS) |||
               m.priv.ie))] } := by
  simp [kinetis_setuartint, kinetis_serialin, kinetis_serialout, putreg32, getreg32, afterRead,
    u32_u32, KINETIS_LPUART_STAT_OFFSET, KINETIS_LPUART_CTRL_OFFSET, KINETIS_LPUART_DATA_OFFSET]

theorem u32_clear_or {c ie : Nat} (M : Nat) (hie : ie < 2 ^ 32) :
    u32 ((c &&& not32 M) ||| ie) = (c &&& not32 M) ||| ie :=
  u32_of_lt (Nat.or_lt_two_pow (Nat.and_lt_two_pow c (not32_lt M)) hie)

theorem rxMask_eq :
    LPUART_CTRL_RX_INTS ||| LPUART_CTRL_ERROR_INTS =
      LPUART_CTRL_RIE ||| LPUART_CTRL_ORIE ||| LPUART_CTRL_FEIE ||| LPUART_CTRL_NEIE |||
        LPUART_CTRL_PEIE := by
  decide

theorem rxint_enable_priv (cfg : Config) (m : State) (hS : cfg.SUPPRESS_SERIAL_INTS = false) :
    (kinetis_rxint cfg true m).priv =
      { m.priv with ie := u32 (m.priv.ie ||| (LPUART_CTRL_RX_INTS ||| LPUART_CTRL_ERROR_INTS)) } := by
  simp [kinetis_rxint, hS, setuartint_priv]

theorem rxint_disable_priv (cfg : Config) (m : State) :
    (kinetis_rxint cfg false m).priv =
      { m.priv with
        ie := u32 (m.priv.ie &&& not32 (LPUART_CTRL_RX_INTS ||| LPUART_CTRL_ERROR_INTS)) } := by
  simp [kinetis_rxint, setuartint_priv]

/-- C11: in a build without `CONFIG_SUPPRESS_SERIAL_INTS`, for a 32-bit shadow:
`kinetis_rxint(dev, true)` sets `priv->ie` to its old value OR
(RIE | ORIE | FEIE | NEIE | PEIE), `kinetis_rxint(dev, false)` sets it to its
old value AND NOT that mask, no other field of the instance and no bit outside
the mask changes, and from `priv->ie = 0` an enable yields exactly the mask. -/
theorem kinetis_rxint_shadow (cfg : Config) (m : State)
    (hS : cfg.SUPPRESS_SERIAL_INTS = false) (hie : m.priv.ie < 2 ^ 32) :
    (kinetis_rxint cfg true m).priv =
      { m.priv with
        ie := m.priv.ie |||
          (LPUART_CTRL_RIE ||| LPUART_CTRL_ORIE ||| LPUART_CTRL_FEIE ||| LPUART_CTRL_NEIE |||
            LPUART_CTRL_PEIE) } ∧
    (kinetis_rxint cfg false m).priv =
      { m.priv with
        ie := m.priv.ie &&&
          not32 (LPUART_CTRL_RIE ||| LPUART_CTRL_ORIE ||| LPUART_CTRL_FEIE ||| LPUART_CTRL_NEIE |||
            LPUART_CTRL_PEIE) } ∧
    (∀ i, (LPUART_CTRL_RIE ||| LPUART_CTRL_ORIE ||| LPUART_CTRL_FEIE ||| LPUART_CTRL_NEIE |||
          LPUART_CTRL_PEIE).testBit i = false →
      (kinetis_rxint cfg true m).priv.ie.testBit i = m.priv.ie.testBit i ∧
      (kinetis_rxint cfg false m).priv.ie.testBit i = m.priv.ie.testBit i) ∧
    (m.priv.ie = 0 →
      (kinetis_rxint cfg true m).priv.ie =
        LPUART_CTRL_RIE ||| LPUART_CTRL_ORIE ||| LPUART_CTRL_FEIE ||| LPUART_CTRL_NEIE |||
          LPUART_CTRL_PEIE) := by
  have hM : LPUART_CTRL_RIE ||| LPUART_CTRL_ORIE ||| LPUART_CTRL_FEIE ||| LPUART_CTRL_NEIE |||
      LPUART_CTRL_PEIE < 2 ^ 32 := by decide
  have hen : u32 (m.priv.ie ||| (LPUART_CTRL_RX_INTS ||| LPUART_CTRL_ERROR_INTS)) =
      m.priv.ie ||| (LPUART_CTRL_RIE ||| LPUART_CTRL_ORIE ||| LPUART_CTRL_FEIE |||
        LPUART_CTRL_NEIE ||| LPUART_CTRL_PEIE) := by
    rw [rxMask_eq]
    exact u32_of_lt (Nat.or_lt_two_pow hie hM)
  have hdis : u32 (m.priv.ie &&& not32 (LPUART_CTRL_RX_INTS ||| LPUART_CTRL_ERROR_INTS)) =
      m.priv.ie &&& not32 (LPUART_CTRL_RIE ||| LPUART_CTRL_ORIE ||| LPUART_CTRL_FEIE |||
        LPUART_CTRL_NEIE ||| LPUART_CTRL_PEIE) := by
    rw [rxMask_eq]
    exact u32_and_right _ (not32_lt _)
  rw [rxint_enable_priv cfg m hS, rxint_disable_priv cfg m, hen, hdis]
  refine ⟨rfl, rfl, ?_, ?_⟩
  · intro i hi
    constructor
    · simp [Nat.testBit_or, hi]
    · simp only [Nat.testBit_and, testBit_not32, hi]
      by_cases h32 : i < 32
      · simp [h32]
      · simp [h32, testBit_of_lt_32 hie (Nat.le_of_not_lt h32)]
  · intro h0
    simp [h0]

/-- C11, witness: from an idle port (`priv->ie = 0`) an enable yields exactly
RIE and the four error enables, and a following disable yields 0 again. -/
theorem kinetis_rxint_shadow_witness :
    buildStd.SUPPRESS_SERIAL_INTS = false ∧ idle.priv.ie < 2 ^ 32 ∧
    ((kinetis_rxint buildStd true idle).priv =
      { idle.priv with
        ie := idle.priv.ie |||
          (LPUART_CTRL_RIE ||| LPUART_CTRL_ORIE ||| LPUART_CTRL_FEIE ||| LPUART_CTRL_NEIE |||
            LPUART_CTRL_PEIE) } ∧
    (kinetis_rxint buildStd false idle).priv =
      { idle.priv with
        ie := idle.priv.ie &&&
          not32 (LPUART_CTRL_RIE ||| LPUART_CTRL_ORIE ||| LPUART_CTRL_FEIE ||| LPUART_CTRL_NEIE |||
            LPUART_CTRL_PEIE) } ∧
    (∀ i, (LPUART_CTRL_RIE ||| LPUART_CTRL_ORIE ||| LPUART_CTRL_FEIE ||| LPUART_CTRL_NEIE |||
          LPUART_CTRL_PEIE).testBit i = false →
      (kinetis_rxint buildStd true idle).priv.ie.testBit i = idle.priv.ie.testBit i ∧
      (kinetis_rxint buildStd false idle).priv.ie.testBit i = idle.priv.ie.testBit i) ∧
    (idle.priv.ie = 0 →
      (kinetis_rxint buildStd true idle).priv.ie =
        LPUART_CTRL_RIE ||| LPUART_CTRL_ORIE ||| LPUART_CTRL_FEIE ||| LPUART_CTRL_NEIE |||
          LPUART_CTRL_PEIE)) ∧
    (kinetis_rxint buildStd true idle).priv.ie = 0x0F200000 ∧
    (kinetis_rxint buildStd false (kinetis_rxint buildStd true idle)).priv.ie = 0 :=
  ⟨rfl, by decide, kinetis_rxint_shadow buildStd idle rfl (by decide), by decide, by decide⟩

/-- C12: in a build without `CONFIG_SUPPRESS_SERIAL_INTS`, for a 32-bit shadow:
`kinetis_txint(dev, true)` sets TIE in `priv->ie`, writes the shadow into the
interrupt-enable bits of CTRL and then invokes `uart_xmitchars` once;
`kinetis_txint(dev, false)` clears TIE in `priv->ie`, writes the shadow into CTRL
and invokes no callback.  No other field of the instance and no other bit of
`priv->ie` is changed by `kinetis_txint` itself. -/
theorem kinetis_txint_shadow (cfg : Config) (fw : Framework) (m : State)
    (hS : cfg.SUPPRESS_SERIAL_INTS = false) (hie : m.priv.ie < 2 ^ 32) :
    kinetis_txint cfg fw true m =
      uart_xmitchars fw
        { priv := { m.priv with ie := m.priv.ie ||| LPUART_CTRL_TIE },
          hw :=
            { m.hw with
              ctrl :=
                (getreg32 KINETIS_LPUART_CTRL_OFFSET m.hw &&& not32 LPUART_CTRL_ALL_INTS) |||
                  (m.priv.ie ||| LPUART_CTRL_TIE) },
          trace := m.trace ++
            [Access.serialin KINETIS_LPUART_CTRL_OFFSET
               (getreg32 KINETIS_LPUART_CTRL_OFFSET m.hw),
             Access.serialout KINETIS_LPUART_CTRL_OFFSET
               ((getreg32 KINETIS_LPUART_CTRL_OFFSET m.hw &&& not32 LPUART_CTRL_ALL_INTS) |||
                 (m.priv.ie ||| LPUART_CTRL_TIE))] } ∧
    (kinetis_txint cfg fw true m).trace = m.trace ++
      [Access.serialin KINETIS_LPUART_CTRL_OFFSET (getreg32 KINETIS_LPUART_CTRL_OFFSET m.hw),
       Access.serialout KINETIS_LPUART_CTRL_OFFSET
         ((getreg32 KINETIS_LPUART_CTRL_OFFSET m.hw &&& not32 LPUART_CTRL_ALL_INTS) |||
           (m.priv.ie ||| LPUART_CTRL_TIE)),
       Access.uart_xmitchars] ∧
    kinetis_txint cfg fw false m =
      { priv := { m.priv with ie := m.priv.ie &&& not32 LPUART_CTRL_TIE },
        hw :=
          { m.hw with
            ctrl :=
              (getreg32 KINETIS_LPUART_CTRL_OFFSET m.hw &&& not32 LPUART_CTRL_ALL_INTS) |||
                (m.priv.ie &&& not32 LPUART_CTRL_TIE) },
        trace := m.trace ++
          [Access.serialin KINETIS_LPUART_CTRL_OFFSET
             (getreg32 KINETIS_LPUART_CTRL_OFFSET m.hw),
           Access.serialout KINETIS_LPUART_CTRL_OFFSET
             ((getreg32 KINETIS_LPUART_CTRL_OFFSET m.hw &&& not32 LPUART_CTRL_ALL_INTS) |||
               (m.priv.ie &&& not32 LPUART_CTRL_TIE))] } := by
  have hT : LPUART_CTRL_TIE < 2 ^ 32 := by decide
  have hen : u32 (m.priv.ie ||| LPUART_CTRL_TX_INTS) = m.priv.ie ||| LPUART_CTRL_TIE :=
    u32_of_lt (Nat.or_lt_two_pow hie hT)
  have hdis : u32 (m.priv.ie &&& not32 LPUART_CTRL_TX_INTS) =
      m.priv.ie &&& not32 LPUART_CTRL_TIE :=
    u32_and_right _ (not32_lt _)
  have hen2 := u32_clear_or (c := getreg32 KINETIS_LPUART_CTRL_OFFSET m.hw)
    LPUART_CTRL_ALL_INTS (Nat.or_lt_two_pow hie hT)
  have hdis2 := u32_clear_or (c := getreg32 KINETIS_LPUART_CTRL_OFFSET m.hw)
    LPUART_CTRL_ALL_INTS (Nat.and_lt_two_pow m.priv.ie (not32_lt LPUART_CTRL_TIE))
  have e1 : kinetis_txint cfg fw true m =
      uart_xmitchars fw
        (kinetis_setuartint
          { m with priv := { m.priv with ie := u32 (m.priv.ie ||| LPUART_CTRL_TX_INTS) } }) := by
    simp [kinetis_txint, hS]
  have e2 : kinetis_txint cfg fw false m =
      kinetis_setuartint
        { m with priv := { m.priv with ie := u32 (m.priv.ie &&& not32 LPUART_CTRL_TX_INTS) } } := by
    simp [kinetis_txint]
  rw [e1, e2, setuartint_eq, setuartint_eq, hen, hdis]
  refine ⟨?_, ?_, ?_⟩
  · simp only [hen2]
  · simp [uart_xmitchars, hen2]
  · simp only [hdis2]

/-- C12, witness: enabling and disabling the transmit interrupt on an idle
port. -/
theorem kinetis_txint_shadow_witness :
    buildStd.SUPPRESS_SERIAL_INTS = false ∧ idle.priv.ie < 2 ^ 32 ∧
    (kinetis_txint buildStd fwIdle true idle).priv.ie = LPUART_CTRL_TIE ∧
    (kinetis_txint buildStd fwIdle true idle).trace =
      [Access.serialin KINETIS_LPUART_CTRL_OFFSET 0,
       Access.serialout KINETIS_LPUART_CTRL_OFFSET LPUART_CTRL_TIE,
       Access.uart_xmitchars] ∧
    (kinetis_txint buildStd fwIdle false (kinetis_txint buildStd fwIdle true idle)).priv.ie = 0 ∧
    (kinetis_txint buildStd fwIdle true idle).trace = idle.trace ++
      [Access.serialin KINETIS_LPUART_CTRL_OFFSET (getreg32 KINETIS_LPUART_CTRL_OFFSET idle.hw),
       Access.serialout KINETIS_LPUART_CTRL_OFFSET
         ((getreg32 KINETIS_LPUART_CTRL_OFFSET idle.hw &&& not32 LPUART_CTRL_ALL_INTS) |||
           (idle.priv.ie ||| LPUART_CTRL_TIE)),
       Access.uart_xmitchars] :=
  ⟨rfl, by decide, by decide, by decide, by decide,
    (kinetis_txint_shadow buildStd fwIdle idle rfl (by decide)).2.1⟩

/-! ## Lifecycle operations -/

/-- C13, the code at a failing input: with the receive and error interrupts
enabled in CTRL and a line programming that leaves CTRL as it is,
`kinetis_setup` returns `OK` with `priv->ie = 0` and RIE clear in CTRL, but
ORIE, FEIE, NEIE and PEIE are still set in CTRL. -/
theorem kinetis_setup_leaves_error_enables :
    (kinetis_setup buildStd fwIdle (rxArmed [] [])).1 = OK ∧
    (kinetis_setup buildStd fwIdle (rxArmed [] [])).2.priv.ie = 0 ∧
    (kinetis_setup buildStd fwIdle (rxArmed [] [])).2.hw.ctrl &&& LPUART_CTRL_ALL_INTS = 0 ∧
    (kinetis_setup buildStd fwIdle (rxArmed [] [])).2.hw.ctrl &&&
        (LPUART_CTRL_ORIE ||| LPUART_CTRL_FEIE ||| LPUART_CTRL_NEIE ||| LPUART_CTRL_PEIE) =
      LPUART_CTRL_ORIE ||| LPUART_CTRL_FEIE ||| LPUART_CTRL_NEIE ||| LPUART_CTRL_PEIE ∧
    intEnableBits (kinetis_setup buildStd fwIdle (rxArmed [] [])).2.hw.ctrl ≠ 0 := by
  decide

/-- C14: `kinetis_attach` returns the value of `irq_attach(priv->irq, ...)`; it
calls `up_enable_irq(priv->irq)` after that call if and only if the value is
`OK`; the instance (so `priv->ie`) and the registers (so CTRL) are unchanged. -/
theorem kinetis_attach_spec (fw : Framework) (m : State) :
    (kinetis_attach fw m).1 = fw.irq_attach m.priv.irq ∧
    (kinetis_attach fw m).2.priv = m.priv ∧
    (kinetis_attach fw m).2.hw = m.hw ∧
    (kinetis_attach fw m).2.trace = m.trace ++ [Access.irq_attach m.priv.irq] ++
      (if fw.irq_attach m.priv.irq = OK then [Access.up_enable_irq m.priv.irq] else []) := by
  unfold kinetis_attach
  by_cases h : fw.irq_attach m.priv.irq = OK <;> simp [h]

/-- C15: `kinetis_detach` first sets `priv->ie` to 0 and writes the shadow into
CTRL (a read of CTRL followed by a write of that value with the bits of
`LPUART_CTRL_ALL_INTS` cleared), then calls `up_disable_irq(priv->irq)`, then
`irq_detach(priv->irq)`; the shadow is 0 from the first step on and no other
field of the instance changes. -/
theorem kinetis_detach_order (m : State) :
    (kinetis_restoreuartint 0 m).priv = { m.priv with ie := 0 } ∧
    kinetis_detach m =
      { kinetis_restoreuartint 0 m with
        trace := (kinetis_restoreuartint 0 m).trace ++
          [Access.up_disable_irq m.priv.irq, Access.irq_detach m.priv.irq] } ∧
    (kinetis_detach m).priv = { m.priv with ie := 0 } ∧
    (kinetis_detach m).trace = m.trace ++
      [Access.serialin KINETIS_LPUART_CTRL_OFFSET (getreg32 KINETIS_LPUART_CTRL_OFFSET m.hw),
       Access.serialout KINETIS_LPUART_CTRL_OFFSET
         (getreg32 KINETIS_LPUART_CTRL_OFFSET m.hw &&& not32 LPUART_CTRL_ALL_INTS),
       Access.up_disable_irq m.priv.irq,
       Access.irq_detach m.priv.irq] := by
  have h0 : u32 (u32 0 &&& LPUART_CTRL_ALL_INTS) = 0 := by decide
  have hr : kinetis_restoreuartint 0 m =
      kinetis_setuartint { m with priv := { m.priv with ie := 0 } } := by
    simp [kinetis_restoreuartint, h0]
  have hv : u32 (getreg32 KINETIS_LPUART_CTRL_OFFSET m.hw &&& not32 LPUART_CTRL_ALL_INTS) =
      getreg32 KINETIS_LPUART_CTRL_OFFSET m.hw &&& not32 LPUART_CTRL_ALL_INTS :=
    u32_and_right _ (not32_lt _)
  unfold kinetis_detach
  rw [hr, setuartint_eq]
  simp [hv]

/-- C16, the code at a failing input: after `kinetis_rxint(dev, true)` on an idle
port the shadow holds RIE and the four error enables; `up_putc` then returns
with `priv->ie` equal to RIE alone, because `kinetis_restoreuartint` masks the
captured value with `LPUART_CTRL_ALL_INTS`; ORIE, FEIE, NEIE and PEIE stay set
in CTRL, so the shadow no longer matches the register. -/
theorem up_putc_drops_error_enables :
    (kinetis_rxint buildStd true idle).priv.ie =
      LPUART_CTRL_RIE ||| LPUART_CTRL_ORIE ||| LPUART_CTRL_FEIE ||| LPUART_CTRL_NEIE |||
        LPUART_CTRL_PEIE ∧
    intEnableBits (kinetis_rxint buildStd true idle).hw.ctrl =
      (kinetis_rxint buildStd true idle).priv.ie ∧
    (kinetis_disableuartint (kinetis_rxint buildStd true idle)).1 =
      (kinetis_rxint buildStd true idle).priv.ie ∧
    (up_putc fwIdle 65 (kinetis_rxint buildStd true idle)).1 = 65 ∧
    (up_putc fwIdle 65 (kinetis_rxint buildStd true idle)).2.priv.ie = LPUART_CTRL_RIE ∧
    (up_putc fwIdle 65 (kinetis_rxint buildStd true idle)).2.priv.ie ≠
      (kinetis_rxint buildStd true idle).priv.ie ∧
    intEnableBits (up_putc fwIdle 65 (kinetis_rxint buildStd true idle)).2.hw.ctrl =
      LPUART_CTRL_RIE ||| LPUART_CTRL_ORIE ||| LPUART_CTRL_FEIE ||| LPUART_CTRL_NEIE |||
        LPUART_CTRL_PEIE := by
  decide

theorem clear_or_idem (c k M : Nat) :
    ((((c &&& not32 M) ||| (k &&& M)) &&& not32 M) ||| (k &&& M)) =
      (c &&& not32 M) ||| (k &&& M) := by
  apply Nat.eq_of_testBit_eq
  intro i
  simp only [Nat.testBit_and, Nat.testBit_or, testBit_not32]
  cases c.testBit i <;> cases k.testBit i <;> cases M.testBit i <;> cases decide (i < 32) <;> rfl

theorem restoreuartint_eq (mask : Nat) (m : State) :
    kinetis_restoreuartint mask m =
      { priv := { m.priv with ie := mask &&& LPUART_CTRL_ALL_INTS },
        hw :=
          { m.hw with
            ctrl :=
              (getreg32 KINETIS_LPUART_CTRL_OFFSET m.hw &&& not32 LPUART_CTRL_ALL_INTS) |||
                (mask &&& LPUART_CTRL_ALL_INTS) },
        trace := m.trace ++
          [Access.serialin KINETIS_LPUART_CTRL_OFFSET
             (getreg32 KINETIS_LPUART_CTRL_OFFSET m.hw),
           Access.serialout KINETIS_LPUART_CTRL_OFFSET
             ((getreg32 KINETIS_LPUART_CTRL_OFFSET m.hw &&& not32 LPUART_CTRL_ALL_INTS) |||
               (mask &&& LPUART_CTRL_ALL_INTS))] } := by
  have hA : LPUART_CTRL_ALL_INTS < 2 ^ 32 := by decide
  have hie : u32 (u32 mask &&& LPUART_CTRL_ALL_INTS) = mask &&& LPUART_CTRL_ALL_INTS := by
    rw [u32_and_right _ hA, u32_and_of_lt _ hA]
  have hv := u32_clear_or (c := getreg32 KINETIS_LPUART_CTRL_OFFSET m.hw)
    LPUART_CTRL_ALL_INTS (Nat.and_lt_two_pow mask hA)
  unfold kinetis_restoreuartint
  rw [setuartint_eq, hie]
  simp only [hv]

/-- C17: for every mask and state `kinetis_restoreuartint(priv, mask)` sets
`priv->ie` to `mask & LPUART_CTRL_ALL_INTS` and nothing else in the instance, and
leaves CTRL equal to its prior value with the bits of `LPUART_CTRL_ALL_INTS`
cleared, ORed with the new `priv->ie`; STAT and DATA are not accessed.  With mask
0 the shadow becomes 0, and a second call with the same mask leaves the
instance and the registers as the first call left them. -/
theorem kinetis_restoreuartint_spec (mask : Nat) (m : State) :
    (kinetis_restoreuartint mask m).priv =
      { m.priv with ie := mask &&& LPUART_CTRL_ALL_INTS } ∧
    (kinetis_restoreuartint mask m).hw =
      { m.hw with
        ctrl :=
          (getreg32 KINETIS_LPUART_CTRL_OFFSET m.hw &&& not32 LPUART_CTRL_ALL_INTS) |||
            (kinetis_restoreuartint mask m).priv.ie } ∧
    (kinetis_restoreuartint 0 m).priv.ie = 0 ∧
    (kinetis_restoreuartint mask (kinetis_restoreuartint mask m)).priv =
      (kinetis_restoreuartint mask m).priv ∧
    (kinetis_restoreuartint mask (kinetis_restoreuartint mask m)).hw =
      (kinetis_restoreuartint mask m).hw := by
  have hA : LPUART_CTRL_ALL_INTS < 2 ^ 32 := by decide
  have hlt : (getreg32 KINETIS_LPUART_CTRL_OFFSET m.hw &&& not32 LPUART_CTRL_ALL_INTS) |||
      (mask &&& LPUART_CTRL_ALL_INTS) < 2 ^ 32 :=
    Nat.or_lt_two_pow (Nat.and_lt_two_pow _ (not32_lt _)) (Nat.and_lt_two_pow mask hA)
  refine ⟨?_, ?_, ?_, ?_, ?_⟩
  · rw [restoreuartint_eq]
  · rw [restoreuartint_eq]
  · rw [restoreuartint_eq]
    simp
  · rw [restoreuartint_eq mask (kinetis_restoreuartint mask m), restoreuartint_eq mask m]
  · rw [restoreuartint_eq mask (kinetis_restoreuartint mask m), restoreuartint_eq mask m]
    have h1 : ∀ s d : List Nat, getreg32 KINETIS_LPUART_CTRL_OFFSET
        { ctrl := (getreg32 KINETIS_LPUART_CTRL_OFFSET m.hw &&& not32 LPUART_CTRL_ALL_INTS) |||
            (mask &&& LPUART_CTRL_ALL_INTS), stat := s, data := d } =
        (getreg32 KINETIS_LPUART_CTRL_OFFSET m.hw &&& not32 LPUART_CTRL_ALL_INTS) |||
          (mask &&& LPUART_CTRL_ALL_INTS) := by
      intro s d
      rw [getreg32_ctrl]
      exact u32_of_lt hlt
    simp only [h1, clear_or_idem]

/-- C18: `kinetis_receive` reads STAT once, then DATA once; it returns the DATA
value converted to `int` and hands back the STAT value as read; afterwards it
writes STAT if and only if that value has one of OR, FE, NF, PF set, and the
value written is exactly those bits.  The instance is unchanged. -/
theorem kinetis_receive_spec (m : State) :
    (kinetis_receive m).1 = toInt32 (getreg32 KINETIS_LPUART_DATA_OFFSET m.hw) ∧
    (kinetis_receive m).2.1 = getreg32 KINETIS_LPUART_STAT_OFFSET m.hw ∧
    (kinetis_receive m).2.2.priv = m.priv ∧
    (kinetis_receive m).2.2.hw.ctrl = m.hw.ctrl ∧
    (kinetis_receive m).2.2.trace = m.trace ++
      [Access.serialin KINETIS_LPUART_STAT_OFFSET (getreg32 KINETIS_LPUART_STAT_OFFSET m.hw),
       Access.serialin KINETIS_LPUART_DATA_OFFSET (getreg32 KINETIS_LPUART_DATA_OFFSET m.hw)] ++
      (if getreg32 KINETIS_LPUART_STAT_OFFSET m.hw &&& LPUART_STAT_ERRORS ≠ 0
        then [Access.serialout KINETIS_LPUART_STAT_OFFSET
                (getreg32 KINETIS_LPUART_STAT_OFFSET m.hw &&& LPUART_STAT_ERRORS)]
        else []) := by
  rw [kinetis_receive_eq]
  exact ⟨rfl, rfl, rfl, rfl, rfl⟩

/-- C19: in a termios build, for well-formed `c_cflag` masks and every instance
state (whatever `priv->bits` is), a `TCGETS` request with a non-null argument
returns `OK` and reports `(c_cflag & CSIZE) = CS8`. -/
theorem ioctl_tcgets_reports_cs8 (cfg : Config) (f : CFlags) (fw : Framework) (arg : Nat)
    (u : termios) (m : State) (hT : cfg.SERIAL_TERMIOS = true) (hf : f.wf) (ha : arg ≠ 0) :
    (kinetis_ioctl cfg f fw IoctlCmd.TCGETS arg u m).1 = OK ∧
    (kinetis_ioctl cfg f fw IoctlCmd.TCGETS arg u m).2.1.c_cflag &&& f.CSIZE = f.CS8 ∧
    (kinetis_ioctl cfg f fw IoctlCmd.TCGETS arg u m).2.2 = m := by
  rw [ioctl_tcgets_eq cfg f fw arg u m hT ha]
  exact ⟨rfl, tcgets_cflag_csize cfg f m.priv hf, rfl⟩

/-- C19, witness: an instance configured for 9-bit words reports CS8. -/
theorem ioctl_tcgets_reports_cs8_witness :
    buildStd.SERIAL_TERMIOS = true ∧ cflagsA.wf ∧ (1 : Nat) ≠ 0 ∧ nineBit.priv.bits = 9 ∧
    ((kinetis_ioctl buildStd cflagsA fwIdle IoctlCmd.TCGETS 1
        { c_cflag := 0, c_speed := 0 } nineBit).1 = OK ∧
    (kinetis_ioctl buildStd cflagsA fwIdle IoctlCmd.TCGETS 1
        { c_cflag := 0, c_speed := 0 } nineBit).2.1.c_cflag &&& cflagsA.CSIZE = cflagsA.CS8 ∧
    (kinetis_ioctl buildStd cflagsA fwIdle IoctlCmd.TCGETS 1
        { c_cflag := 0, c_speed := 0 } nineBit).2.2 = nineBit) :=
  ⟨rfl, by decide, by decide, rfl,
    ioctl_tcgets_reports_cs8 buildStd cflagsA fwIdle 1 { c_cflag := 0, c_speed := 0 } nineBit
      rfl (by decide) (by decide)⟩

/-- C20, the code at a failing input: with the transmitter, the receiver and the
receive and error interrupts enabled in CTRL, a `TIOCSSINGLEWIRE` request with
`SER_SINGLEWIRE_ENABLED` returns `OK` and writes CTRL with LOOPS and RSRC only:
the value read from CTRL passes through the `uint8_t` local `regval`, so TE, RE,
RIE and the error enables are cleared while `priv->ie` still holds RIE and the
error enables. -/
theorem ioctl_singlewire_clears_upper_bits :
    (kinetis_ioctl buildStd cflagsA fwIdle IoctlCmd.TIOCSSINGLEWIRE SER_SINGLEWIRE_ENABLED
        { c_cflag := 0, c_speed := 0 } (rxArmed [] [])).1 = OK ∧
    (kinetis_ioctl buildStd cflagsA fwIdle IoctlCmd.TIOCSSINGLEWIRE SER_SINGLEWIRE_ENABLED
        { c_cflag := 0, c_speed := 0 } (rxArmed [] [])).2.2.hw.ctrl =
      LPUART_CTRL_LOOPS ||| LPUART_CTRL_RSRC ∧
    (rxArmed [] []).hw.ctrl &&& (LPUART_CTRL_TE ||| LPUART_CTRL_RE) =
      LPUART_CTRL_TE ||| LPUART_CTRL_RE ∧
    (kinetis_ioctl buildStd cflagsA fwIdle IoctlCmd.TIOCSSINGLEWIRE SER_SINGLEWIRE_ENABLED
        { c_cflag := 0, c_speed := 0 } (rxArmed [] [])).2.2.hw.ctrl &&&
      (LPUART_CTRL_TE ||| LPUART_CTRL_RE) = 0 ∧
    (kinetis_ioctl buildStd cflagsA fwIdle IoctlCmd.TIOCSSINGLEWIRE SER_SINGLEWIRE_ENABLED
        { c_cflag := 0, c_speed := 0 } (rxArmed [] [])).2.2.priv.ie =
      LPUART_CTRL_RIE ||| LPUART_CTRL_ERROR_INTS ∧
    intEnableBits (kinetis_ioctl buildStd cflagsA fwIdle IoctlCmd.TIOCSSINGLEWIRE
        SER_SINGLEWIRE_ENABLED { c_cflag := 0, c_speed := 0 } (rxArmed [] [])).2.2.hw.ctrl = 0 ∧
    (kinetis_ioctl buildStd cflagsA fwIdle IoctlCmd.TIOCSSINGLEWIRE SER_SINGLEWIRE_ENABLED
        { c_cflag := 0, c_speed := 0 } (rxArmed [] [])).2.2.trace =
      [Access.serialin KINETIS_LPUART_CTRL_OFFSET (rxArmed [] []).hw.ctrl,
       Access.serialout KINETIS_LPUART_CTRL_OFFSET (LPUART_CTRL_LOOPS ||| LPUART_CTRL_RSRC)] := by
  decide

/-! ## Readiness queries -/

/-- C22: `kinetis_txready` (also installed as `txempty`) returns true if and only
if TDRE is set in the value read from STAT, and `kinetis_rxavailable` returns
true if and only if RDRF is set in it; each makes one read of STAT and no write,
and leaves the instance (so `priv->ie`) and CTRL unchanged. -/
theorem kinetis_txready_rxavailable_spec (m : State) :
    ((kinetis_txready m).1 = true ↔
      getreg32 KINETIS_LPUART_STAT_OFFSET m.hw &&& LPUART_STAT_TDRE ≠ 0) ∧
    (kinetis_txready m).2.priv = m.priv ∧
    (kinetis_txready m).2.hw.ctrl = m.hw.ctrl ∧
    (kinetis_txready m).2.trace = m.trace ++
      [Access.serialin KINETIS_LPUART_STAT_OFFSET (getreg32 KINETIS_LPUART_STAT_OFFSET m.hw)] ∧
    ((kinetis_rxavailable m).1 = true ↔
      getreg32 KINETIS_LPUART_STAT_OFFSET m.hw &&& LPUART_STAT_RDRF ≠ 0) ∧
    (kinetis_rxavailable m).2.priv = m.priv ∧
    (kinetis_rxavailable m).2.hw.ctrl = m.hw.ctrl ∧
    (kinetis_rxavailable m).2.trace = m.trace ++
      [Access.serialin KINETIS_LPUART_STAT_OFFSET (getreg32 KINETIS_LPUART_STAT_OFFSET m.hw)] := by
  simp [kinetis_txready, kinetis_rxavailable, kinetis_serialin, afterRead,
    KINETIS_LPUART_STAT_OFFSET, KINETIS_LPUART_CTRL_OFFSET, KINETIS_LPUART_DATA_OFFSET]

/-! ## The enable-to-status mapping -/

theorem ctrl2stat_within {A B K : Nat} (h : ((A >>> 8) ||| B) &&& K = (A >>> 8) ||| B)
    (c : Nat) :
    (((c &&& A) >>> 8) ||| (c &&& B)) &&& K = ((c &&& A) >>> 8) ||| (c &&& B) := by
  apply Nat.eq_of_testBit_eq
  intro i
  have hi := congrArg (fun x => x.testBit i) h
  simp only [Nat.testBit_and, Nat.testBit_or, Nat.testBit_shiftRight] at hi ⊢
  revert hi
  cases c.testBit (8 + i) <;> cases c.testBit i <;> cases A.testBit (8 + i) <;>
    cases B.testBit i <;> cases K.testBit i <;> simp

theorem ctrl2stat_bit (c i : Nat) (hT : LPUART_CTRL_TR_INTS.testBit i = false)
    (hE : LPUART_CTRL_ERROR_INTS.testBit (8 + i) = true) :
    (LPUART_CTRL2STAT c &&& 1 <<< i ≠ 0 ↔ c &&& 1 <<< (8 + i) ≠ 0) := by
  rw [and_bit_ne_zero, and_bit_ne_zero, testBit_ctrl2stat, hT, hE]
  simp

theorem ctrl2stat_bit_same (c i : Nat) (hT : LPUART_CTRL_TR_INTS.testBit i = true)
    (hE : LPUART_CTRL_ERROR_INTS.testBit (8 + i) = false) :
    (LPUART_CTRL2STAT c &&& 1 <<< i ≠ 0 ↔ c &&& 1 <<< i ≠ 0) := by
  rw [and_bit_ne_zero, and_bit_ne_zero, testBit_ctrl2stat, hT, hE]
  simp

theorem and_and_bit (s x i : Nat) :
    ((s &&& x) &&& 1 <<< i ≠ 0 ↔ (s &&& 1 <<< i ≠ 0 ∧ x &&& 1 <<< i ≠ 0)) := by
  simp only [and_bit_ne_zero, Nat.testBit_and]
  simp

/-- C26: for every CTRL value `c`, `LPUART_CTRL2STAT(c)` has OR set iff ORIE is
set in `c`, NF iff NEIE, FE iff FEIE, PF iff PEIE, RDRF iff RIE, TDRE iff TIE,
and no bit outside these six; hence for every STAT value `s` the qualified
status `s & LPUART_CTRL2STAT(c)` has one of these six bits set exactly when the
bit is set in `s` and its enable bit is set in `c`. -/
theorem ctrl2stat_maps_enables (c : Nat) :
    (LPUART_CTRL2STAT c &&& LPUART_STAT_OR ≠ 0 ↔ c &&& LPUART_CTRL_ORIE ≠ 0) ∧
    (LPUART_CTRL2STAT c &&& LPUART_STAT_NF ≠ 0 ↔ c &&& LPUART_CTRL_NEIE ≠ 0) ∧
    (LPUART_CTRL2STAT c &&& LPUART_STAT_FE ≠ 0 ↔ c &&& LPUART_CTRL_FEIE ≠ 0) ∧
    (LPUART_CTRL2STAT c &&& LPUART_STAT_PF ≠ 0 ↔ c &&& LPUART_CTRL_PEIE ≠ 0) ∧
    (LPUART_CTRL2STAT c &&& LPUART_STAT_RDRF ≠ 0 ↔ c &&& LPUART_CTRL_RIE ≠ 0) ∧
    (LPUART_CTRL2STAT c &&& LPUART_STAT_TDRE ≠ 0 ↔ c &&& LPUART_CTRL_TIE ≠ 0) ∧
    LPUART_CTRL2STAT c &&&
        (LPUART_STAT_OR ||| LPUART_STAT_NF ||| LPUART_STAT_FE ||| LPUART_STAT_PF |||
          LPUART_STAT_RDRF ||| LPUART_STAT_TDRE) = LPUART_CTRL2STAT c ∧
    (∀ s : Nat,
      ((s &&& LPUART_CTRL2STAT c) &&& LPUART_STAT_OR ≠ 0 ↔
        (s &&& LPUART_STAT_OR ≠ 0 ∧ c &&& LPUART_CTRL_ORIE ≠ 0)) ∧
      ((s &&& LPUART_CTRL2STAT c) &&& LPUART_STAT_NF ≠ 0 ↔
        (s &&& LPUART_STAT_NF ≠ 0 ∧ c &&& LPUART_CTRL_NEIE ≠ 0)) ∧
      ((s &&& LPUART_CTRL2STAT c) &&& LPUART_STAT_FE ≠ 0 ↔
        (s &&& LPUART_STAT_FE ≠ 0 ∧ c &&& LPUART_CTRL_FEIE ≠ 0)) ∧
      ((s &&& LPUART_CTRL2STAT c) &&& LPUART_STAT_PF ≠ 0 ↔
        (s &&& LPUART_STAT_PF ≠ 0 ∧ c &&& LPUART_CTRL_PEIE ≠ 0)) ∧
      ((s &&& LPUART_CTRL2STAT c) &&& LPUART_STAT_RDRF ≠ 0 ↔
        (s &&& LPUART_STAT_RDRF ≠ 0 ∧ c &&& LPUART_CTRL_RIE ≠ 0)) ∧
      ((s &&& LPUART_CTRL2STAT c) &&& LPUART_STAT_TDRE ≠ 0 ↔
        (s &&& LPUART_STAT_TDRE ≠ 0 ∧ c &&& LPUART_CTRL_TIE ≠ 0))) := by
  have hOR : (LPUART_CTRL2STAT c &&& LPUART_STAT_OR ≠ 0 ↔ c &&& LPUART_CTRL_ORIE ≠ 0) :=
    ctrl2stat_bit c 19 (by decide) (by decide)
  have hNF : (LPUART_CTRL2STAT c &&& LPUART_STAT_NF ≠ 0 ↔ c &&& LPUART_CTRL_NEIE ≠ 0) :=
    ctrl2stat_bit c 18 (by decide) (by decide)
  have hFE : (LPUART_CTRL2STAT c &&& LPUART_STAT_FE ≠ 0 ↔ c &&& LPUART_CTRL_FEIE ≠ 0) :=
    ctrl2stat_bit c 17 (by decide) (by decide)
  have hPF : (LPUART_CTRL2STAT c &&& LPUART_STAT_PF ≠ 0 ↔ c &&& LPUART_CTRL_PEIE ≠ 0) :=
    ctrl2stat_bit c 16 (by decide) (by decide)
  have hRD : (LPUART_CTRL2STAT c &&& LPUART_STAT_RDRF ≠ 0 ↔ c &&& LPUART_CTRL_RIE ≠ 0) :=
    ctrl2stat_bit_same c 21 (by decide) (by decide)
  have hTD : (LPUART_CTRL2STAT c &&& LPUART_STAT_TDRE ≠ 0 ↔ c &&& LPUART_CTRL_TIE ≠ 0) :=
    ctrl2stat_bit_same c 23 (by decide) (by decide)
  refine ⟨hOR, hNF, hFE, hPF, hRD, hTD, ctrl2stat_within (by decide) c, ?_⟩
  intro s
  refine ⟨?_, ?_, ?_, ?_, ?_, ?_⟩
  · rw [← hOR]; exact and_and_bit s _ 19
  · rw [← hNF]; exact and_and_bit s _ 18
  · rw [← hFE]; exact and_and_bit s _ 17
  · rw [← hPF]; exact and_and_bit s _ 16
  · rw [← hRD]; exact and_and_bit s _ 21
  · rw [← hTD]; exact and_and_bit s _ 23

/-! ## Frame of the shadow update -/

theorem setuartint_frame (m : State) {K : Nat}
    (hie : m.priv.ie &&& (LPUART_CTRL_ALL_INTS ||| LPUART_CTRL_ERROR_INTS) = m.priv.ie)
    (hK : K &&& (LPUART_CTRL_ALL_INTS ||| LPUART_CTRL_ERROR_INTS) = 0) :
    (kinetis_setuartint m).hw.ctrl &&& K = getreg32 KINETIS_LPUART_CTRL_OFFSET m.hw &&& K := by
  rw [setuartint_ctrl, getreg32_ctrl]
  apply Nat.eq_of_testBit_eq
  intro i
  have h1 := congrArg (fun x => x.testBit i) hie
  have h2 := congrArg (fun x => x.testBit i) hK
  simp only [Nat.testBit_and, Nat.testBit_or, testBit_u32, testBit_not32,
    Nat.zero_testBit] at h1 h2 ⊢
  revert h1 h2
  cases m.priv.ie.testBit i <;> cases K.testBit i <;> cases LPUART_CTRL_ALL_INTS.testBit i <;>
    cases LPUART_CTRL_ERROR_INTS.testBit i <;> cases m.hw.ctrl.testBit i <;>
    cases decide (i < 32) <;> simp

theorem and_mask_within (x M : Nat) : (x &&& M) &&& M = x &&& M := by
  rw [Nat.and_assoc, Nat.and_self]

theorem within_of_and (x : Nat) {A M : Nat} (h : A &&& M = A) : (x &&& A) &&& M = x &&& A := by
  rw [Nat.and_assoc, h]

theorem within_or {x y M : Nat} (hx : x &&& M = x) (hy : y &&& M = y) :
    (x ||| y) &&& M = x ||| y := by
  rw [and_or_right, hx, hy]

theorem within_and_left {x M : Nat} (y : Nat) (hx : x &&& M = x) : (x &&& y) &&& M = x &&& y := by
  rw [Nat.and_assoc, Nat.and_comm y M, ← Nat.and_assoc, hx]

theorem within_u32 {x M : Nat} (hx : x &&& M = x) : u32 x &&& M = u32 x := by
  apply Nat.eq_of_testBit_eq
  intro i
  have h1 := congrArg (fun z => z.testBit i) hx
  simp only [Nat.testBit_and, testBit_u32] at h1 ⊢
  revert h1
  cases x.testBit i <;> cases M.testBit i <;> cases decide (i < 32) <;> simp

theorem restoreuartint_shadow_within (mask : Nat) (m : State) :
    (kinetis_restoreuartint mask m).priv.ie &&&
        (LPUART_CTRL_ALL_INTS ||| LPUART_CTRL_ERROR_INTS) =
      (kinetis_restoreuartint mask m).priv.ie := by
  rw [restoreuartint_eq]
  exact within_of_and mask (by decide)

theorem rxint_shadow_within (cfg : Config) (enable : Bool) (m : State)
    (hie : m.priv.ie &&& (LPUART_CTRL_ALL_INTS ||| LPUART_CTRL_ERROR_INTS) = m.priv.ie) :
    (kinetis_rxint cfg enable m).priv.ie &&&
        (LPUART_CTRL_ALL_INTS ||| LPUART_CTRL_ERROR_INTS) =
      (kinetis_rxint cfg enable m).priv.ie := by
  cases enable
  · rw [rxint_disable_priv]
    exact within_u32 (within_and_left _ hie)
  · cases hS : cfg.SUPPRESS_SERIAL_INTS
    · rw [rxint_enable_priv cfg m hS]
      exact within_u32 (within_or hie (by decide))
    · simpa [kinetis_rxint, hS] using hie

theorem txint_disable_shadow_within (cfg : Config) (fw : Framework) (m : State)
    (hie : m.priv.ie &&& (LPUART_CTRL_ALL_INTS ||| LPUART_CTRL_ERROR_INTS) = m.priv.ie) :
    (kinetis_txint cfg fw false m).priv.ie &&&
        (LPUART_CTRL_ALL_INTS ||| LPUART_CTRL_ERROR_INTS) =
      (kinetis_txint cfg fw false m).priv.ie := by
  have e : (kinetis_txint cfg fw false m).priv.ie =
      u32 (m.priv.ie &&& not32 LPUART_CTRL_TX_INTS) := by
    simp [kinetis_txint, setuartint_priv]
  rw [e]
  exact within_u32 (within_and_left _ hie)

/-- C23: `kinetis_setuartint` leaves the instance, so `priv->ie`, unchanged.
When the shadow holds interrupt-enable bits only (bits of
`LPUART_CTRL_ALL_INTS` and the four error enables, the only bits the driver
ever puts there), every CTRL bit outside the interrupt-enable bits keeps its
value: in particular TE, RE, the parity bits PE and PT, the word-length bit M,
the loop-mode bits LOOPS and RSRC, and SBK. -/
theorem kinetis_setuartint_frame (m : State)
    (hie : m.priv.ie &&& (LPUART_CTRL_ALL_INTS ||| LPUART_CTRL_ERROR_INTS) = m.priv.ie) :
    (kinetis_setuartint m).priv = m.priv ∧
    (∀ K : Nat, K &&& (LPUART_CTRL_ALL_INTS ||| LPUART_CTRL_ERROR_INTS) = 0 →
      (kinetis_setuartint m).hw.ctrl &&& K =
        getreg32 KINETIS_LPUART_CTRL_OFFSET m.hw &&& K) ∧
    (kinetis_setuartint m).hw.ctrl &&& LPUART_CTRL_TE =
      getreg32 KINETIS_LPUART_CTRL_OFFSET m.hw &&& LPUART_CTRL_TE ∧
    (kinetis_setuartint m).hw.ctrl &&& LPUART_CTRL_RE =
      getreg32 KINETIS_LPUART_CTRL_OFFSET m.hw &&& LPUART_CTRL_RE ∧
    (kinetis_setuartint m).hw.ctrl &&& LPUART_CTRL_PE =
      getreg32 KINETIS_LPUART_CTRL_OFFSET m.hw &&& LPUART_CTRL_PE ∧
    (kinetis_setuartint m).hw.ctrl &&& LPUART_CTRL_PT =
      getreg32 KINETIS_LPUART_CTRL_OFFSET m.hw &&& LPUART_CTRL_PT ∧
    (kinetis_setuartint m).hw.ctrl &&& LPUART_CTRL_M =
      getreg32 KINETIS_LPUART_CTRL_OFFSET m.hw &&& LPUART_CTRL_M ∧
    (kinetis_setuartint m).hw.ctrl &&& LPUART_CTRL_LOOPS =
      getreg32 KINETIS_LPUART_CTRL_OFFSET m.hw &&& LPUART_CTRL_LOOPS ∧
    (kinetis_setuartint m).hw.ctrl &&& LPUART_CTRL_RSRC =
      getreg32 KINETIS_LPUART_CTRL_OFFSET m.hw &&& LPUART_CTRL_RSRC ∧
    (kinetis_setuartint m).hw.ctrl &&& LPUART_CTRL_SBK =
      getreg32 KINETIS_LPUART_CTRL_OFFSET m.hw &&& LPUART_CTRL_SBK :=
  ⟨setuartint_priv m, fun _ hK => setuartint_frame m hie hK,
    setuartint_frame m hie (by decide), setuartint_frame m hie (by decide),
    setuartint_frame m hie (by decide), setuartint_frame m hie (by decide),
    setuartint_frame m hie (by decide), setuartint_frame m hie (by decide),
    setuartint_frame m hie (by decide), setuartint_frame m hie (by decide)⟩

/-- C23, witness: a port with the receive, error and transmit interrupts in the
shadow. -/
theorem kinetis_setuartint_frame_witness :
    (rxtxArmed [] []).priv.ie &&& (LPUART_CTRL_ALL_INTS ||| LPUART_CTRL_ERROR_INTS) =
      (rxtxArmed [] []).priv.ie ∧
    (kinetis_setuartint (rxtxArmed [] [])).priv = (rxtxArmed [] []).priv ∧
    (kinetis_setuartint (rxtxArmed [] [])).hw.ctrl &&& LPUART_CTRL_TE =
      getreg32 KINETIS_LPUART_CTRL_OFFSET (rxtxArmed [] []).hw &&& LPUART_CTRL_TE ∧
    (kinetis_setuartint (rxtxArmed [] [])).hw.ctrl &&& LPUART_CTRL_TE = LPUART_CTRL_TE ∧
    (kinetis_setuartint (rxtxArmed [] [])).hw.ctrl = (rxtxArmed [] []).hw.ctrl :=
  ⟨by decide, (kinetis_setuartint_frame (rxtxArmed [] []) (by decide)).1,
    (kinetis_setuartint_frame (rxtxArmed [] []) (by decide)).2.2.1, by decide, by decide⟩

/-- C24, the code at a failing input: with input flow control on and the
receive, error and transmit interrupts in the shadow, `kinetis_rxflowcontrol`
called with `upper = true` returns true and leaves `priv->ie` at 0: the shadow
passes through the `uint16_t` local `ie`, so TIE (bit 23) is lost with RIE, and
TIE is cleared in CTRL as well. -/
theorem kinetis_rxflowcontrol_drops_tie :
    (rxtxArmed [] []).priv.iflow = true ∧
    (rxtxArmed [] []).priv.ie &&& LPUART_CTRL_TIE = LPUART_CTRL_TIE ∧
    (kinetis_rxflowcontrol buildStd 64 true (rxtxArmed [] [])).1 = true ∧
    (kinetis_rxflowcontrol buildStd 64 true (rxtxArmed [] [])).2.priv.ie = 0 ∧
    (kinetis_rxflowcontrol buildStd 64 true (rxtxArmed [] [])).2.priv.ie &&& LPUART_CTRL_TIE ≠
      (rxtxArmed [] []).priv.ie &&& LPUART_CTRL_TIE ∧
    (kinetis_rxflowcontrol buildStd 64 true (rxtxArmed [] [])).2.hw.ctrl &&& LPUART_CTRL_TIE =
      0 ∧
    u16 (rxtxArmed [] []).priv.ie = 0 := by
  decide

/-- C25, the code at a failing input: in the BSD-compatible build, with TE and RE
set in CTRL, a `TIOCSBRK` request returns `OK` after writing 0 to CTRL (the
value read passes through the `uint8_t` local `regval`, so SBK, bit 16, is never
set and TE and RE are cleared); CTRL ends with SBK, TE and RE clear.  A
following `TIOCCBRK` leaves TE and RE clear as well.  The first write of the
request goes to offset `LPUART_STAT_BRK13`, not to STAT. -/
theorem ioctl_tiocsbrk_never_sets_sbk :
    (rxArmed [0] []).hw.ctrl &&& (LPUART_CTRL_TE ||| LPUART_CTRL_RE) =
      LPUART_CTRL_TE ||| LPUART_CTRL_RE ∧
    (kinetis_ioctl buildStd cflagsA fwIdle IoctlCmd.TIOCSBRK 0
        { c_cflag := 0, c_speed := 0 } (rxArmed [0] [])).1 = OK ∧
    (kinetis_ioctl buildStd cflagsA fwIdle IoctlCmd.TIOCSBRK 0
        { c_cflag := 0, c_speed := 0 } (rxArmed [0] [])).2.2.trace =
      [Access.serialin KINETIS_LPUART_STAT_OFFSET 0,
       Access.serialout LPUART_STAT_BRK13 0,
       Access.serialin KINETIS_LPUART_CTRL_OFFSET (rxArmed [] []).hw.ctrl,
       Access.serialout KINETIS_LPUART_CTRL_OFFSET 0,
       Access.serialin KINETIS_LPUART_CTRL_OFFSET 0,
       Access.serialout KINETIS_LPUART_CTRL_OFFSET
         (LPUART_CTRL_RIE ||| LPUART_CTRL_ERROR_INTS)] ∧
    (kinetis_ioctl buildStd cflagsA fwIdle IoctlCmd.TIOCSBRK 0
        { c_cflag := 0, c_speed := 0 } (rxArmed [0] [])).2.2.hw.ctrl &&& LPUART_CTRL_SBK = 0 ∧
    (kinetis_ioctl buildStd cflagsA fwIdle IoctlCmd.TIOCSBRK 0
        { c_cflag := 0, c_speed := 0 } (rxArmed [0] [])).2.2.hw.ctrl &&&
      (LPUART_CTRL_TE ||| LPUART_CTRL_RE) = 0 ∧
    (kinetis_ioctl buildStd cflagsA fwIdle IoctlCmd.TIOCCBRK 0 { c_cflag := 0, c_speed := 0 }
      (kinetis_ioctl buildStd cflagsA fwIdle IoctlCmd.TIOCSBRK 0
        { c_cflag := 0, c_speed := 0 } (rxArmed [0] [])).2.2).2.2.hw.ctrl &&&
      (LPUART_CTRL_TE ||| LPUART_CTRL_RE) = 0 := by
  decide

/-! ## Break requests and the transmit interrupt -/

theorem clear_then_set (x : Nat) {B : Nat} (hx : x < 2 ^ 32) (hB : B < 2 ^ 32) :
    u32 (u32 (x &&& not32 B) ||| B) = x ||| B := by
  apply Nat.eq_of_testBit_eq
  intro i
  simp only [Nat.testBit_and, Nat.testBit_or, testBit_u32, testBit_not32]
  by_cases hi : i < 32
  · simp [hi]
    cases x.testBit i <;> cases B.testBit i <;> rfl
  · simp [hi, testBit_of_lt_32 hx (Nat.le_of_not_lt hi),
      testBit_of_lt_32 hB (Nat.le_of_not_lt hi)]

theorem count_xmit_serialin (tr : List Access) (o v : Nat) :
    (tr ++ [Access.serialin o v]).count Access.uart_xmitchars =
      tr.count Access.uart_xmitchars := by
  simp [List.count_append]

theorem count_xmit_serialout (tr : List Access) (o v : Nat) :
    (tr ++ [Access.serialout o v]).count Access.uart_xmitchars =
      tr.count Access.uart_xmitchars := by
  simp [List.count_append]

theorem count_xmit_setuartint (m : State) :
    (kinetis_setuartint m).trace.count Access.uart_xmitchars =
      m.trace.count Access.uart_xmitchars := by
  rw [setuartint_eq]
  simp [List.count_append]

/-- C21, the claim at a failing input: with a transmit callback that finds
nothing queued and disables the transmit interrupt, a `TIOCSBRK` request
followed by a `TIOCCBRK` request on a port that had TIE in `priv->ie` returns
`OK` with `uart_xmitchars` invoked once and TIE clear in `priv->ie`. -/
theorem ioctl_tioccbrk_callback_clears_tie :
    (rxtxArmed [0] []).priv.ie &&& LPUART_CTRL_TIE ≠ 0 ∧
    (kinetis_ioctl buildStd cflagsA fwDrained IoctlCmd.TIOCCBRK 0 { c_cflag := 0, c_speed := 0 }
      (kinetis_ioctl buildStd cflagsA fwDrained IoctlCmd.TIOCSBRK 0 { c_cflag := 0, c_speed := 0 }
        (rxtxArmed [0] [])).2.2).1 = OK ∧
    (kinetis_ioctl buildStd cflagsA fwDrained IoctlCmd.TIOCCBRK 0 { c_cflag := 0, c_speed := 0 }
      (kinetis_ioctl buildStd cflagsA fwDrained IoctlCmd.TIOCSBRK 0 { c_cflag := 0, c_speed := 0 }
        (rxtxArmed [0] [])).2.2).2.2.trace.count Access.uart_xmitchars = 1 ∧
    (kinetis_ioctl buildStd cflagsA fwDrained IoctlCmd.TIOCCBRK 0 { c_cflag := 0, c_speed := 0 }
      (kinetis_ioctl buildStd cflagsA fwDrained IoctlCmd.TIOCSBRK 0 { c_cflag := 0, c_speed := 0 }
        (rxtxArmed [0] [])).2.2).2.2.priv.ie = LPUART_CTRL_RIE ||| LPUART_CTRL_ERROR_INTS ∧
    (kinetis_ioctl buildStd cflagsA fwDrained IoctlCmd.TIOCCBRK 0 { c_cflag := 0, c_speed := 0 }
      (kinetis_ioctl buildStd cflagsA fwDrained IoctlCmd.TIOCSBRK 0 { c_cflag := 0, c_speed := 0 }
        (rxtxArmed [0] [])).2.2).2.2.priv.ie &&& LPUART_CTRL_TIE = 0 := by
  decide

/-- C21, amended: in a break build with `CONFIG_KINETIS_SERIALBRK_BSDCOMPAT` and
without `CONFIG_SUPPRESS_SERIAL_INTS`, for a 32-bit shadow: a `TIOCSBRK` request
returns `OK`, clears TIE in `priv->ie`, changes nothing else in the instance and
does not invoke `uart_xmitchars`; a following `TIOCCBRK` request sets TIE in
`priv->ie` again with every other bit as before the two requests, then invokes
`uart_xmitchars` once, as its last action, and returns `OK` with the state that
callback leaves.  So on return `priv->ie` is the value the callback leaves: the
shadow before the two requests with TIE set whenever the callback does not
change `priv->ie`. -/
theorem ioctl_break_toggles_tie (cfg : Config) (f : CFlags) (fw : Framework) (a1 a2 : Nat)
    (u1 u2 : termios) (m : State) (hB : cfg.KINETIS_UART_BREAKS = true)
    (hD : cfg.KINETIS_SERIALBRK_BSDCOMPAT = true) (hS : cfg.SUPPRESS_SERIAL_INTS = false)
    (hie : m.priv.ie < 2 ^ 32) :
    (kinetis_ioctl cfg f fw IoctlCmd.TIOCSBRK a1 u1 m).1 = OK ∧
    (kinetis_ioctl cfg f fw IoctlCmd.TIOCSBRK a1 u1 m).2.2.priv =
      { m.priv with ie := m.priv.ie &&& not32 LPUART_CTRL_TIE } ∧
    (kinetis_ioctl cfg f fw IoctlCmd.TIOCSBRK a1 u1 m).2.2.trace.count Access.uart_xmitchars =
      m.trace.count Access.uart_xmitchars ∧
    ∃ m2 : State,
      kinetis_ioctl cfg f fw IoctlCmd.TIOCCBRK a2 u2
          (kinetis_ioctl cfg f fw IoctlCmd.TIOCSBRK a1 u1 m).2.2 =
        (OK, u2, uart_xmitchars fw m2) ∧
      m2.priv = { m.priv with ie := m.priv.ie ||| LPUART_CTRL_TIE } ∧
      m2.trace.count Access.uart_xmitchars = m.trace.count Access.uart_xmitchars ∧
      (uart_xmitchars fw m2).trace = m2.trace ++ [Access.uart_xmitchars] ∧
      (uart_xmitchars fw m2).priv = (fw.uart_xmitchars m2.priv m2.hw).1 ∧
      ((fw.uart_xmitchars m2.priv m2.hw).1.ie = m2.priv.ie →
        (kinetis_ioctl cfg f fw IoctlCmd.TIOCCBRK a2 u2
          (kinetis_ioctl cfg f fw IoctlCmd.TIOCSBRK a1 u1 m).2.2).2.2.priv.ie =
            m.priv.ie ||| LPUART_CTRL_TIE) := by
  have hT : LPUART_CTRL_TIE < 2 ^ 32 := by decide
  have hdis : u32 (m.priv.ie &&& not32 LPUART_CTRL_TX_INTS) =
      m.priv.ie &&& not32 LPUART_CTRL_TIE :=
    u32_and_right _ (not32_lt _)
  have hen : u32 (u32 (m.priv.ie &&& not32 LPUART_CTRL_TX_INTS) ||| LPUART_CTRL_TX_INTS) =
      m.priv.ie ||| LPUART_CTRL_TIE :=
    clear_then_set m.priv.ie hie hT
  have e1 : (kinetis_ioctl cfg f fw IoctlCmd.TIOCSBRK a1 u1 m).2.2.priv =
      { m.priv with ie := u32 (m.priv.ie &&& not32 LPUART_CTRL_TX_INTS) } := by
    simp [kinetis_ioctl, hB, hD, kinetis_txint, setuartint_priv, kinetis_serialin,
      kinetis_serialout]
  have e2 : kinetis_ioctl cfg f fw IoctlCmd.TIOCCBRK a2 u2
        (kinetis_ioctl cfg f fw IoctlCmd.TIOCSBRK a1 u1 m).2.2 =
      (OK, u2, uart_xmitchars fw
        (kinetis_setuartint
        { (kinetis_serialout KINETIS_LPUART_CTRL_OFFSET
            (u8 (u8 (kinetis_serialin KINETIS_LPUART_CTRL_OFFSET
              (kinetis_ioctl cfg f fw IoctlCmd.TIOCSBRK a1 u1 m).2.2).1 &&&
                not32 LPUART_CTRL_SBK))
            (kinetis_serialin KINETIS_LPUART_CTRL_OFFSET
              (kinetis_ioctl cfg f fw IoctlCmd.TIOCSBRK a1 u1 m).2.2).2) with
          priv := { m.priv with
            ie := u32 (u32 (m.priv.ie &&& not32 LPUART_CTRL_TX_INTS) |||
              LPUART_CTRL_TX_INTS) } })) := by
    simp [kinetis_ioctl, hB, hD, hS, kinetis_txint, setuartint_priv, kinetis_serialin,
      kinetis_serialout]
  refine ⟨?_, ?_, ?_, ?_⟩
  · simp [kinetis_ioctl, hB, hD]
  · rw [e1, hdis]
  · simp [kinetis_ioctl, hB, hD, kinetis_txint, count_xmit_setuartint, kinetis_serialin,
      kinetis_serialout, List.count_append]
  · refine ⟨_, e2, ?_, ?_, ?_, ?_, ?_⟩
    · rw [setuartint_priv, hen]
    · rw [count_xmit_setuartint]
      simp [kinetis_ioctl, hB, hD, kinetis_txint, count_xmit_setuartint, kinetis_serialin,
        kinetis_serialout, List.count_append]
    · simp [uart_xmitchars]
    · simp [uart_xmitchars]
    · intro hk
      rw [e2]
      simp only [uart_xmitchars]
      rw [hk, setuartint_priv, hen]


/-- C21, witness: a break asserted and cleared on a port with the receive, error
and transmit interrupts in the shadow. -/
theorem ioctl_break_toggles_tie_witness :
    buildStd.KINETIS_UART_BREAKS = true ∧ buildStd.KINETIS_SERIALBRK_BSDCOMPAT = true ∧
    buildStd.SUPPRESS_SERIAL_INTS = false ∧ (rxtxArmed [0] []).priv.ie < 2 ^ 32 ∧
    (kinetis_ioctl buildStd cflagsA fwIdle IoctlCmd.TIOCSBRK 0 { c_cflag := 0, c_speed := 0 }
        (rxtxArmed [0] [])).2.2.priv =
      { (rxtxArmed [0] []).priv with
        ie := (rxtxArmed [0] []).priv.ie &&& not32 LPUART_CTRL_TIE } ∧
    (kinetis_ioctl buildStd cflagsA fwIdle IoctlCmd.TIOCSBRK 0 { c_cflag := 0, c_speed := 0 }
        (rxtxArmed [0] [])).2.2.priv.ie = LPUART_CTRL_RIE ||| LPUART_CTRL_ERROR_INTS ∧
    (kinetis_ioctl buildStd cflagsA fwIdle IoctlCmd.TIOCSBRK 0 { c_cflag := 0, c_speed := 0 }
        (rxtxArmed [0] [])).2.2.trace.count Access.uart_xmitchars = 0 ∧
    (kinetis_ioctl buildStd cflagsA fwIdle IoctlCmd.TIOCCBRK 0 { c_cflag := 0, c_speed := 0 }
      (kinetis_ioctl buildStd cflagsA fwIdle IoctlCmd.TIOCSBRK 0 { c_cflag := 0, c_speed := 0 }
        (rxtxArmed [0] [])).2.2).2.2.priv.ie = (rxtxArmed [0] []).priv.ie ∧
    (kinetis_ioctl buildStd cflagsA fwIdle IoctlCmd.TIOCCBRK 0 { c_cflag := 0, c_speed := 0 }
      (kinetis_ioctl buildStd cflagsA fwIdle IoctlCmd.TIOCSBRK 0 { c_cflag := 0, c_speed := 0 }
        (rxtxArmed [0] [])).2.2).2.2.trace.count Access.uart_xmitchars = 1 :=
  ⟨rfl, rfl, rfl, by decide,
    (ioctl_break_toggles_tie buildStd cflagsA fwIdle 0 0 { c_cflag := 0, c_speed := 0 }
      { c_cflag := 0, c_speed := 0 } (rxtxArmed [0] []) rfl rfl rfl (by decide)).2.1,
    by decide, by decide, by decide, by decide⟩

end KinetisLpserial

namespace At32W25

/-! ## The partition loop -/

theorem toInt32_of_lt {x : Nat} (h : x < 2 ^ 31) : KinetisLpserial.toInt32 x = (x : Int) := by
  have h32 : KinetisLpserial.u32 x = x :=
    KinetisLpserial.u32_of_lt (Nat.lt_of_lt_of_le h (by decide))
  unfold KinetisLpserial.toInt32
  rw [h32]
  rw [if_pos h]

theorem partitions_append (a b : List Call) : partitions (a ++ b) = partitions a ++ partitions b := by
  simp [partitions, List.filterMap_append]

theorem partitions_registered (cfg : BoardConfig) (partno : Int) (tr : List Call) :
    partitions
      (if (cfg.MTD_CONFIG && decide (FLASH_CONFIG_PART_NUMBER = partno)) = true
        then tr ++ [Call.mtdconfig_register partno]
        else if cfg.SMARTFS = true then tr ++ [Call.smart W25QXX_FLASH_MINOR partno]
        else tr) = partitions tr := by
  split
  · simp [partitions_append, partitions]
  · split
    · simp [partitions_append, partitions]
    · rfl

theorem partitionLoop_step (cfg : BoardConfig) (es bs : Int) (fuel : Nat) (c : Char)
    (cs : List Char) (partno off : Int) (tr : List Call)
    (h1 : ¬ atoi (c :: cs) * 2 ^ 10 < es) (h2 : Int.tmod (atoi (c :: cs) * 2 ^ 10) es = 0) :
    partitionLoop cfg es bs (fuel + 1) (c :: cs) partno off tr =
      partitionLoop cfg es bs fuel (nextSize (c :: cs)) (partno + 1)
        (off + Int.tdiv (atoi (c :: cs) * 2 ^ 10) bs)
        (if (cfg.MTD_CONFIG && decide (FLASH_CONFIG_PART_NUMBER = partno)) = true
          then tr ++ [Call.mtd_partition off (Int.tdiv (atoi (c :: cs) * 2 ^ 10) bs)] ++
            [Call.mtdconfig_register partno]
          else if cfg.SMARTFS = true
            then tr ++ [Call.mtd_partition off (Int.tdiv (atoi (c :: cs) * 2 ^ 10) bs)] ++
              [Call.smart W25QXX_FLASH_MINOR partno]
            else tr ++ [Call.mtd_partition off (Int.tdiv (atoi (c :: cs) * 2 ^ 10) bs)]) := by
  rw [partitionLoop]
  simp only [h1, h2, if_false, ne_eq, not_true_eq_false]

theorem partitionLoop_refuse (cfg : BoardConfig) (es bs : Int) (fuel : Nat) (c : Char)
    (cs : List Char) (partno off : Int) (tr : List Call)
    (h : atoi (c :: cs) * 2 ^ 10 < es ∨ Int.tmod (atoi (c :: cs) * 2 ^ 10) es ≠ 0) :
    partitionLoop cfg es bs (fuel + 1) (c :: cs) partno off tr = some (-1, tr) := by
  rw [partitionLoop]
  by_cases h1 : atoi (c :: cs) * 2 ^ 10 < es
  · simp only [h1, if_true]
  · have h2 := h.resolve_left h1
    simp only [h1, h2, if_false, ne_eq, not_false_eq_true, if_true]

theorem part_list_sizes :
    PART_LIST.toList = '5' :: "12, 4096, 1024".toList ∧
    atoi ('5' :: "12, 4096, 1024".toList) = 512 ∧
    nextSize ('5' :: "12, 4096, 1024".toList) = '4' :: "096, 1024".toList ∧
    atoi ('4' :: "096, 1024".toList) = 4096 ∧
    nextSize ('4' :: "096, 1024".toList) = '1' :: "024".toList ∧
    atoi ('1' :: "024".toList) = 1024 ∧
    nextSize ('1' :: "024".toList) = [] := by
  decide

theorem size_accepted {es k : Nat} (hd : es ∣ k * 1024) (hk : 0 < k) :
    ¬ ((k : Int) * 2 ^ 10 < (es : Int)) ∧ Int.tmod ((k : Int) * 2 ^ 10) (es : Int) = 0 := by
  have hle : es ≤ k * 1024 := Nat.le_of_dvd (by omega) hd
  have hmod : (k * 1024) % es = 0 := Nat.mod_eq_zero_of_dvd hd
  have e : ((k : Int) * 2 ^ 10) = ((k * 1024 : Nat) : Int) := by push_cast; norm_num
  constructor
  · rw [e]
    exact_mod_cast Nat.not_lt.mpr hle
  · rw [e, ← Int.ofNat_tmod, hmod]
    rfl

theorem size_blocks (k bs : Nat) :
    Int.tdiv ((k : Int) * 2 ^ 10) (bs : Int) = ((k * 1024 / bs : Nat) : Int) := by
  have e : ((k : Int) * 2 ^ 10) = ((k * 1024 : Nat) : Int) := by push_cast; norm_num
  rw [e, ← Int.ofNat_tdiv]

theorem partitions_step (cfg : BoardConfig) (partno off len : Int) (tr : List Call) :
    partitions
      (if (cfg.MTD_CONFIG && decide (FLASH_CONFIG_PART_NUMBER = partno)) = true
        then tr ++ [Call.mtd_partition off len] ++ [Call.mtdconfig_register partno]
        else if cfg.SMARTFS = true
          then tr ++ [Call.mtd_partition off len] ++ [Call.smart W25QXX_FLASH_MINOR partno]
          else tr ++ [Call.mtd_partition off len]) = partitions tr ++ [(off, len)] := by
  split
  · simp [partitions_append, partitions]
  · split
    · simp [partitions_append, partitions]
    · simp [partitions_append, partitions]

theorem partitionLoop_accept (cfg : BoardConfig) (es bs fuel : Nat) (c : Char) (cs : List Char)
    (partno off : Int) (tr : List Call) (k : Nat) (hk : atoi (c :: cs) = (k : Int))
    (hd : es ∣ k * 1024) (hpos : 0 < k) :
    partitionLoop cfg (es : Int) (bs : Int) (fuel + 1) (c :: cs) partno off tr =
      partitionLoop cfg (es : Int) (bs : Int) fuel (nextSize (c :: cs)) (partno + 1)
        (off + ((k * 1024 / bs : Nat) : Int))
        (if (cfg.MTD_CONFIG && decide (FLASH_CONFIG_PART_NUMBER = partno)) = true
          then tr ++ [Call.mtd_partition off ((k * 1024 / bs : Nat) : Int)] ++
            [Call.mtdconfig_register partno]
          else if cfg.SMARTFS = true
            then tr ++ [Call.mtd_partition off ((k * 1024 / bs : Nat) : Int)] ++
              [Call.smart W25QXX_FLASH_MINOR partno]
            else tr ++ [Call.mtd_partition off ((k * 1024 / bs : Nat) : Int)]) := by
  have h := size_accepted hd hpos
  rw [← hk] at h
  rw [partitionLoop_step cfg es bs fuel c cs partno off tr h.1 h.2, hk, size_blocks]

theorem dvd_first_of_refused {es : Nat}
    (h : 512 * 1024 < es ∨ ¬ es ∣ 512 * 1024 ∨ 4096 * 1024 < es ∨ ¬ es ∣ 4096 * 1024 ∨
      1024 * 1024 < es ∨ ¬ es ∣ 1024 * 1024) : ¬ es ∣ 512 * 1024 := by
  intro hd
  have hle : es ≤ 512 * 1024 := Nat.le_of_dvd (by decide) hd
  have h4 : es ∣ 4096 * 1024 := Dvd.dvd.trans hd ⟨8, by norm_num⟩
  have h1 : es ∣ 1024 * 1024 := Dvd.dvd.trans hd ⟨2, by norm_num⟩
  rcases h with h | h | h | h | h | h
  · omega
  · exact h hd
  · omega
  · exact h h4
  · omega
  · exact h h1

/-- C27: in a build that partitions the flash (`HAVE_W25`, no FAT), when the SPI
bus, the W25 driver and the geometry request succeed and `erasesize` is a
positive `int`: if `blocksize` is a positive `int` and `erasesize` divides each
size of `PART_LIST` in bytes, then for every bound of at least four passes the
function returns `OK` after creating exactly three partitions, in list order:
the first starts at block 64, each later one starts where the previous one
ends, and the partition of `k` KB has `(k * 1024) / blocksize` blocks.  If
instead some listed size in bytes is smaller than `erasesize` or not a multiple
of it, the function returns -1, in its first pass and before any partition is
created. -/
theorem at32_w25_partition_loop (cfg : BoardConfig) (env : Board) (fuel : Nat) (minor : Int)
    (hW : cfg.HAVE_W25 = true) (hF : cfg.FS_FAT = false) (hs : env.spi_ok = true)
    (hm : env.mtd_ok = true) (hg : 0 ≤ env.geometry_ret)
    (_he0 : 0 < env.geo.erasesize) (he : env.geo.erasesize < 2 ^ 31) :
    ((0 < env.geo.blocksize ∧ env.geo.blocksize < 2 ^ 31 ∧
        env.geo.erasesize ∣ 512 * 1024 ∧ env.geo.erasesize ∣ 4096 * 1024 ∧
        env.geo.erasesize ∣ 1024 * 1024) →
      ∃ tr, at32_w25initialize cfg env (fuel + 4) minor = some (OK, tr) ∧
        partitions tr =
          [(64, ((512 * 1024 / env.geo.blocksize : Nat) : Int)),
           (64 + ((512 * 1024 / env.geo.blocksize : Nat) : Int),
             ((4096 * 1024 / env.geo.blocksize : Nat) : Int)),
           (64 + ((512 * 1024 / env.geo.blocksize : Nat) : Int) +
               ((4096 * 1024 / env.geo.blocksize : Nat) : Int),
             ((1024 * 1024 / env.geo.blocksize : Nat) : Int))]) ∧
    ((512 * 1024 < env.geo.erasesize ∨ ¬ env.geo.erasesize ∣ 512 * 1024 ∨
        4096 * 1024 < env.geo.erasesize ∨ ¬ env.geo.erasesize ∣ 4096 * 1024 ∨
        1024 * 1024 < env.geo.erasesize ∨ ¬ env.geo.erasesize ∣ 1024 * 1024) →
      at32_w25initialize cfg env (fuel + 1) minor =
        some (-1, [Call.spibus W25_SPI_PORT, Call.w25, Call.geometry])) := by
  have hg2 : ¬ env.geometry_ret < 0 := Int.not_lt.mpr hg
  obtain ⟨hp0, ha0, hn0, ha1, hn1, ha2, hn2⟩ := part_list_sizes
  constructor
  · rintro ⟨_, hb, hd1, hd2, hd3⟩
    have k0 : atoi ('5' :: "12, 4096, 1024".toList) = ((512 : Nat) : Int) := by
      rw [ha0]; rfl
    have k1 : atoi ('4' :: "096, 1024".toList) = ((4096 : Nat) : Int) := by
      rw [ha1]; rfl
    have k2 : atoi ('1' :: "024".toList) = ((1024 : Nat) : Int) := by
      rw [ha2]; rfl
    unfold at32_w25initialize
    simp only [hW, hF, hs, hm, hg2, if_true, if_false, Bool.false_eq_true]
    rw [toInt32_of_lt he, toInt32_of_lt hb, hp0,
      partitionLoop_accept cfg _ _ (fuel + 3) _ _ _ _ _ 512 k0 hd1 (by decide), hn0,
      partitionLoop_accept cfg _ _ (fuel + 2) _ _ _ _ _ 4096 k1 hd2 (by decide), hn1,
      partitionLoop_accept cfg _ _ (fuel + 1) _ _ _ _ _ 1024 k2 hd3 (by decide), hn2,
      partitionLoop]
    refine ⟨_, rfl, ?_⟩
    rw [partitions_step, partitions_step, partitions_step]
    simp [partitions]
  · intro h
    have hnd := dvd_first_of_refused h
    unfold at32_w25initialize
    simp only [hW, hF, hs, hm, hg2, if_true, if_false, Bool.false_eq_true]
    rw [toInt32_of_lt he, hp0]
    apply partitionLoop_refuse
    rw [ha0]
    by_cases hlt : 512 * 1024 < env.geo.erasesize
    · left
      have : ((512 * 1024 : Nat) : Int) < (env.geo.erasesize : Int) := by exact_mod_cast hlt
      simpa using this
    · right
      have e : ((512 : Int) * 2 ^ 10) = ((512 * 1024 : Nat) : Int) := by norm_num
      rw [e, ← Int.ofNat_tmod]
      intro h0
      have h1 : (512 * 1024) % env.geo.erasesize = 0 := by exact_mod_cast h0
      exact hnd (Nat.dvd_of_mod_eq_zero h1)

/-- C27, witness: 256-byte blocks and 4096-byte erase blocks give the
partitions (64, 2048), (2112, 16384) and (18496, 4096); an erase block of 1 MB
is larger than the first size and the function returns -1. -/
theorem at32_w25_partition_loop_witness :
    boardStd.HAVE_W25 = true ∧ boardStd.FS_FAT = false ∧ (w25Board 4096).spi_ok = true ∧
    (w25Board 4096).mtd_ok = true ∧ 0 ≤ (w25Board 4096).geometry_ret ∧
    0 < (w25Board 4096).geo.erasesize ∧ (w25Board 4096).geo.erasesize < 2 ^ 31 ∧
    (0 < (w25Board 4096).geo.blocksize ∧ (w25Board 4096).geo.blocksize < 2 ^ 31 ∧
      (w25Board 4096).geo.erasesize ∣ 512 * 1024 ∧ (w25Board 4096).geo.erasesize ∣ 4096 * 1024 ∧
      (w25Board 4096).geo.erasesize ∣ 1024 * 1024) ∧
    (∃ tr, at32_w25initialize boardStd (w25Board 4096) (0 + 4) 0 = some (OK, tr) ∧
      partitions tr =
        [(64, ((512 * 1024 / (w25Board 4096).geo.blocksize : Nat) : Int)),
         (64 + ((512 * 1024 / (w25Board 4096).geo.blocksize : Nat) : Int),
           ((4096 * 1024 / (w25Board 4096).geo.blocksize : Nat) : Int)),
         (64 + ((512 * 1024 / (w25Board 4096).geo.blocksize : Nat) : Int) +
             ((4096 * 1024 / (w25Board 4096).geo.blocksize : Nat) : Int),
           ((1024 * 1024 / (w25Board 4096).geo.blocksize : Nat) : Int))]) ∧
    at32_w25initialize boardStd (w25Board 4096) 4 0 =
      some (OK, [Call.spibus 1, Call.w25, Call.geometry, Call.mtd_partition 64 2048,
        Call.mtdconfig_register 0, Call.mtd_partition 2112 16384, Call.smart 0 1,
        Call.mtd_partition 18496 4096, Call.smart 0 2]) ∧
    512 * 1024 < (w25Board 1048576).geo.erasesize ∧
    at32_w25initialize boardStd (w25Board 1048576) (0 + 1) 0 =
      some (-1, [Call.spibus W25_SPI_PORT, Call.w25, Call.geometry]) ∧
    at32_w25initialize boardStd (w25Board 3000) 1 0 =
      some (-1, [Call.spibus W25_SPI_PORT, Call.w25, Call.geometry]) :=
  ⟨rfl, rfl, rfl, rfl, by decide, by decide, by decide, by decide,
    (at32_w25_partition_loop boardStd (w25Board 4096) 0 0 rfl rfl rfl rfl (by decide)
      (by decide) (by decide)).1 (by decide),
    by decide, by decide,
    (at32_w25_partition_loop boardStd (w25Board 1048576) 0 0 rfl rfl rfl rfl (by decide)
      (by decide) (by decide)).2 (Or.inl (by decide)),
    by decide⟩

end At32W25
